import Mathlib

/-!
# OJT management: geofence geometry and attendance machine

A shallow embedding of `src/pages/geofenceUtils.js` and of the attendance
handlers of `src/pages/Dashboard.jsx`.

Modelling conventions.

* JavaScript numbers are modelled by an exact linearly ordered field `K`
  (executable at `ℚ`, instantiated at `ℝ` for the trigonometric results);
  `NaN`, infinities and rounding are outside this model.  The one place where
  rounding is modelled is the haversine term: `haversineTermRounded` with
  `roundDouble` evaluates it in IEEE-754 double arithmetic.
* The functions of the JavaScript `Math` object used by the source are passed
  as a record `MathOps K`; `realMath` is their interpretation over `ℝ`.
* A JavaScript object may lack a property.  The geometry fields of a geofence
  are therefore optional, and a function that would throw a `TypeError`
  (reading a property of `undefined`) returns `none`.
* React state is an explicit record; every handler reads the state of the
  render it is invoked from and returns the next state.
-/

namespace OJT

/-! ## geofenceUtils.js -/

/-- Coordinate object, the source's lat / lng pair. -/
structure Coord (K : Type) where
  lat : K
  lng : K
deriving DecidableEq, Repr

/-- Functions and constants of the JavaScript Math object used by the source. -/
structure MathOps (K : Type) where
  PI : K
  sin : K → K
  cos : K → K
  sqrt : K → K
  atan2 : K → K → K

/-- Geofence document as stored by the dashboard.  The discriminating field is
the string type; the geometry fields are optional because a JavaScript object
may lack them. -/
structure Geofence (K : Type) where
  id : String
  name : String
  type : String
  center : Option (Coord K)
  radius : Option K
  coordinates : Option (List (Coord K))
deriving DecidableEq, Repr

section Geometry

variable {K : Type} [LinearOrderedField K]

/-- Source: getDistanceBetweenPoints, geofenceUtils.js lines 1-14. -/
def getDistanceBetweenPoints (M : MathOps K) (point1 point2 : Coord K) : K :=
  let R : K := 6371000
  let φ1 := point1.lat * M.PI / 180
  let φ2 := point2.lat * M.PI / 180
  let Δφ := (point2.lat - point1.lat) * M.PI / 180
  let Δl := (point2.lng - point1.lng) * M.PI / 180
  let a := M.sin (Δφ / 2) * M.sin (Δφ / 2) +
           M.cos φ1 * M.cos φ2 *
           M.sin (Δl / 2) * M.sin (Δl / 2)
  let c := 2 * M.atan2 (M.sqrt a) (M.sqrt (1 - a))
  R * c

/-- Source: isPointInCircle, geofenceUtils.js lines 16-19. -/
def isPointInCircle (M : MathOps K) (point center : Coord K) (radius : K) : Bool :=
  let distance := getDistanceBetweenPoints M point center
  decide (distance ≤ radius)

/-- The condition of the if statement in the loop body of isPointInPolygon,
for the vertices vi = coordinates[i] and vj = coordinates[j].  The second
conjunct is only evaluated when the first holds, as with the source operator &&. -/
def edgeCondition (point vi vj : Coord K) : Bool :=
  (decide (vi.lat > point.lat) != decide (vj.lat > point.lat)) &&
  decide (point.lng <
    (vj.lng - vi.lng) * (point.lat - vi.lat) / (vj.lat - vi.lat) + vi.lng)

/-- One iteration of the for loop of isPointInPolygon: the loop state is the
pair (inside, j); the iteration for index i tests the edge, possibly flips
inside, and sets j to i.  The indices i and j are always within the list, so
the fallback vertex is never used. -/
def polygonStep (point : Coord K) (coordinates : List (Coord K))
    (st : Bool × Nat) (i : Nat) : Bool × Nat :=
  let vi := coordinates.getD i ⟨0, 0⟩
  let vj := coordinates.getD st.2 ⟨0, 0⟩
  (if edgeCondition point vi vj then !st.1 else st.1, i)

/-- Source: isPointInPolygon, geofenceUtils.js lines 21-30.  The loop runs
i = 0 .. length - 1 starting from inside = false and j = length - 1. -/
def isPointInPolygon (point : Coord K) (coordinates : List (Coord K)) : Bool :=
  ((List.range coordinates.length).foldl (polygonStep point coordinates)
    (false, coordinates.length - 1)).1

/-- Source: isLocationInsideGeofence, geofenceUtils.js lines 32-53.  The
result none stands for a TypeError thrown while reading a property of a
missing field; a missing radius compares as false. -/
def isLocationInsideGeofence (M : MathOps K) (location : Coord K)
    (geofence : Geofence K) : Option Bool :=
  if geofence.type = "circle" then
    match geofence.center, geofence.radius with
    | none, _ => none
    | some _, none => some false
    | some center, some radius => some (isPointInCircle M location center radius)
  else if geofence.type = "rectangle" then
    match geofence.coordinates with
    | none => none
    | some coordinates =>
      match coordinates[0]?, coordinates[2]? with
      | some c0, some c2 =>
        let latMin := min c0.lat c2.lat
        let latMax := max c0.lat c2.lat
        let lngMin := min c0.lng c2.lng
        let lngMax := max c0.lng c2.lng
        some (decide (location.lat ≥ latMin) &&
              decide (location.lat ≤ latMax) &&
              decide (location.lng ≥ lngMin) &&
              decide (location.lng ≤ lngMax))
      | _, _ => none
  else if geofence.type = "polygon" then
    match geofence.coordinates with
    | none => none
    | some coordinates => some (isPointInPolygon location coordinates)
  else
    some false

/-- Source: checkGeofenceStatus, Dashboard.jsx lines 280-288, as a function of
the geofence list visible to the closure.  The result is the value handed to
setIsInsideGeofence; none means that the forEach callback threw before the
setter was reached. -/
def checkGeofenceStatus (M : MathOps K) (geofences : List (Geofence K))
    (location : Coord K) : Option Bool :=
  geofences.foldlM
    (fun insideAny geofence =>
      (isLocationInsideGeofence M location geofence).map
        (fun r => if r then true else insideAny))
    false

end Geometry

/-- Interpretation of the JavaScript Math functions over the real numbers;
Math.atan2(y, x) is the argument of the complex number x + iy. -/
noncomputable def realMath : MathOps ℝ where
  PI := Real.pi
  sin := Real.sin
  cos := Real.cos
  sqrt := Real.sqrt
  atan2 := fun y x => Complex.arg ⟨x, y⟩

/-! ## Dashboard.jsx: attendance machine -/

/-- The authenticated user, as read by the handlers (user.uid, user.name). -/
structure User where
  uid : String
  name : String
deriving DecidableEq, Repr

/-- Attendance record literal of handleTimeIn / handleTimeOut.  The timestamp,
an ISO-8601 string in the source, is kept as the millisecond count it encodes
(toISOString and the Date constructor are inverse at millisecond resolution);
shiftDuration is only present on time-out records. -/
structure AttendanceRecord (K : Type) where
  id : Int
  userId : String
  userName : String
  type : String
  timestamp : Int
  location : Coord K
  accuracy : Option K
  date : String
  shiftDuration : Option Int
deriving DecidableEq, Repr

/-- The successive readings of the system clock taken while a handler builds
its record literal, in evaluation order: Date.now() for the id, new Date() for
the timestamp, new Date().toDateString() for the date and, in handleTimeOut,
Date.now() for the shift duration. -/
structure ClockReads where
  idNow : Int
  stampNow : Int
  dateString : String
  durationNow : Int
deriving DecidableEq, Repr

/-- What the handler reports to the user (the alert it raises). -/
inductive Outcome where
  | locationUnavailable
  | outsideWorkArea
  | alreadyClockedIn
  | notClockedIn
  | success
  | storageError
deriving DecidableEq, Repr

/-- React state of the Dashboard component that the attendance logic reads or
writes, together with the two localStorage entries of the user and the remote
attendance collection written by addDoc. -/
structure DashState (K : Type) where
  geofences : List (Geofence K)
  attendanceRecords : List (AttendanceRecord K)
  currentLocation : Option (Coord K)
  locationAccuracy : Option K
  isInsideGeofence : Bool
  currentShift : Option (AttendanceRecord K)
  storedShift : Option (AttendanceRecord K)
  storedAttendance : Option (List (AttendanceRecord K))
  remoteAttendance : List (AttendanceRecord K)
deriving DecidableEq

/-- Fields of a geofence overwritten by handleShapeEdit (the object
updatedData): centre and radius for a circle, coordinates otherwise. -/
structure GeofenceUpdate (K : Type) where
  center : Option (Coord K)
  radius : Option K
  coordinates : Option (List (Coord K))
deriving DecidableEq

section Machine

variable {K : Type} [LinearOrderedField K]

/-- State of a freshly mounted component: the useState initial values, over
the given contents of localStorage and of the remote collection. -/
def initialState (storedShift : Option (AttendanceRecord K))
    (storedAttendance : Option (List (AttendanceRecord K)))
    (remoteAttendance : List (AttendanceRecord K)) : DashState K :=
  { geofences := []
    attendanceRecords := []
    currentLocation := none
    locationAccuracy := none
    isInsideGeofence := false
    currentShift := none
    storedShift := storedShift
    storedAttendance := storedAttendance
    remoteAttendance := remoteAttendance }

/-- Source: loadAttendanceRecords, Dashboard.jsx lines 191-196. -/
def loadAttendanceRecords (s : DashState K) : DashState K :=
  match s.storedAttendance with
  | some stored => { s with attendanceRecords := stored }
  | none => s

/-- Source: loadShiftFromStorage, Dashboard.jsx lines 198-209; today is the
value of new Date().toDateString(). -/
def loadShiftFromStorage (today : String) (s : DashState K) : DashState K :=
  match s.storedShift with
  | some shift =>
    if shift.date = today then { s with currentShift := some shift }
    else { s with storedShift := none }
  | none => s

/-- Source: saveShiftToStorage, Dashboard.jsx lines 211-213. -/
def saveShiftToStorage (shift : AttendanceRecord K) (s : DashState K) : DashState K :=
  { s with storedShift := some shift }

/-- Source: saveAttendanceRecord, Dashboard.jsx lines 215-219. -/
def saveAttendanceRecord (record : AttendanceRecord K) (s : DashState K) : DashState K :=
  let updated := s.attendanceRecords ++ [record]
  { s with attendanceRecords := updated, storedAttendance := some updated }

/-- Success callback of getCurrentPosition / watchPosition, Dashboard.jsx lines
231-241 and 254-263.  The list seen is the geofence list captured by the
closure that registered the callback.  When checkGeofenceStatus throws, the
flag keeps its previous value. -/
def onPosition (M : MathOps K) (seen : List (Geofence K)) (location : Coord K)
    (accuracy : K) (s : DashState K) : DashState K :=
  let s1 := { s with currentLocation := some location, locationAccuracy := some accuracy }
  match checkGeofenceStatus M seen location with
  | some insideAny => { s1 with isInsideGeofence := insideAny }
  | none => s1

/-- Source: handleTimeIn, Dashboard.jsx lines 290-321.  addDocOk tells whether
the awaited addDoc resolved (true) or rejected (false). -/
def handleTimeIn (user : User) (clock : ClockReads) (addDocOk : Bool)
    (s : DashState K) : Outcome × DashState K :=
  match s.currentLocation with
  | none => (Outcome.locationUnavailable, s)
  | some currentLocation =>
    if (!s.isInsideGeofence) && decide (s.geofences.length > 0) then
      (Outcome.outsideWorkArea, s)
    else if s.currentShift.isSome then
      (Outcome.alreadyClockedIn, s)
    else
      let record : AttendanceRecord K :=
        { id := clock.idNow, userId := user.uid, userName := user.name, type := "time-in"
          timestamp := clock.stampNow, location := currentLocation
          accuracy := s.locationAccuracy, date := clock.dateString
          shiftDuration := none }
      if addDocOk then
        let s1 := { s with remoteAttendance := s.remoteAttendance ++ [record] }
        let s2 := saveAttendanceRecord record s1
        let s3 := { s2 with currentShift := some record }
        (Outcome.success, saveShiftToStorage record s3)
      else
        (Outcome.storageError, s)

/-- Source: handleTimeOut, Dashboard.jsx lines 323-355. -/
def handleTimeOut (user : User) (clock : ClockReads) (addDocOk : Bool)
    (s : DashState K) : Outcome × DashState K :=
  match s.currentLocation with
  | none => (Outcome.locationUnavailable, s)
  | some currentLocation =>
    if (!s.isInsideGeofence) && decide (s.geofences.length > 0) then
      (Outcome.outsideWorkArea, s)
    else
      match s.currentShift with
      | none => (Outcome.notClockedIn, s)
      | some currentShift =>
        let record : AttendanceRecord K :=
          { id := clock.idNow, userId := user.uid, userName := user.name, type := "time-out"
            timestamp := clock.stampNow, location := currentLocation
            accuracy := s.locationAccuracy, date := clock.dateString
            shiftDuration := some (clock.durationNow - currentShift.timestamp) }
        if addDocOk then
          let s1 := { s with remoteAttendance := s.remoteAttendance ++ [record] }
          let s2 := saveAttendanceRecord record s1
          (Outcome.success, { s2 with currentShift := none, storedShift := none })
        else
          (Outcome.storageError, s)

/-- The merge of updatedData into a geofence performed by handleShapeEdit. -/
def applyUpdate (u : GeofenceUpdate K) (g : Geofence K) : Geofence K :=
  { g with
    center := u.center.orElse (fun _ => g.center)
    radius := u.radius.orElse (fun _ => g.radius)
    coordinates := u.coordinates.orElse (fun _ => g.coordinates) }

/-- Events of a dashboard session that touch the attendance state. -/
inductive Event (K : Type) where
  -- A position delivered to a callback whose closure captured the list seen.
  | position (seen : List (Geofence K)) (location : Coord K) (accuracy : K)
  -- The setGeofences call of loadGeofences (the empty list on error).
  | geofencesLoaded (data : List (Geofence K))
  -- The setGeofences call of saveGeofence.
  | geofenceSaved (g : Geofence K)
  -- The setGeofences call of handleShapeEdit.
  | shapeEdited (geofenceId : String) (u : GeofenceUpdate K)
  -- The setGeofences call of deleteGeofence.
  | geofenceDeleted (geofenceId : String)
  -- A click on Time In.
  | timeIn (clock : ClockReads) (addDocOk : Bool)
  -- A click on Time Out.
  | timeOut (clock : ClockReads) (addDocOk : Bool)

/-- Effect of one event on the state. -/
def step (M : MathOps K) (user : User) (s : DashState K) : Event K → DashState K
  | Event.position seen location accuracy => onPosition M seen location accuracy s
  | Event.geofencesLoaded data => { s with geofences := data }
  | Event.geofenceSaved g => { s with geofences := s.geofences ++ [g] }
  | Event.shapeEdited geofenceId u =>
    { s with geofences :=
        s.geofences.map (fun g => if g.id = geofenceId then applyUpdate u g else g) }
  | Event.geofenceDeleted geofenceId =>
    { s with geofences := s.geofences.filter (fun g => g.id != geofenceId) }
  | Event.timeIn clock addDocOk => (handleTimeIn user clock addDocOk s).2
  | Event.timeOut clock addDocOk => (handleTimeOut user clock addDocOk s).2

/-- State after a sequence of events. -/
def run (M : MathOps K) (user : User) (s : DashState K) (es : List (Event K)) : DashState K :=
  es.foldl (step M user) s

/-- An event that is not a click on Time Out. -/
def Event.isTimeOut : Event K → Bool
  | Event.timeOut _ _ => true
  | _ => false

end Machine

/-! ## Specification-side definitions and concrete data -/

section SpecSide

variable {K : Type} [LinearOrderedField K]

/-- The index before i in a ring of n vertices: the first vertex wraps to the last. -/
def prevIndex (n i : Nat) : Nat :=
  if i = 0 then n - 1 else i - 1

/-- Longitude of the edge from vi to vj linearly interpolated at latitude lat. -/
def edgeLngAt (vi vj : Coord K) (lat : K) : K :=
  vi.lng + (vj.lng - vi.lng) * ((lat - vi.lat) / (vj.lat - vi.lat))

/-- Crossing test in the words of the specification: the latitude of p is
strictly between the latitudes of the two vertices, and the longitude of p is
less than the interpolated longitude of the edge. -/
def crossesStrict (p vi vj : Coord K) : Bool :=
  decide (((vi.lat < p.lat ∧ p.lat < vj.lat) ∨ (vj.lat < p.lat ∧ p.lat < vi.lat)) ∧
    p.lng < edgeLngAt vi vj p.lat)

/-- Crossing test with the lower latitude included and the upper excluded. -/
def crossesHalfOpen (p vi vj : Coord K) : Bool :=
  decide (((vi.lat ≤ p.lat ∧ p.lat < vj.lat) ∨ (vj.lat ≤ p.lat ∧ p.lat < vi.lat)) ∧
    p.lng < edgeLngAt vi vj p.lat)

/-- Number of edges (v[i], v[prevIndex i]) of the ring v that satisfy the test. -/
def crossingCount (test : Coord K → Coord K → Bool) (v : List (Coord K)) : Nat :=
  ((List.range v.length).filter
    (fun i => test (v.getD i ⟨0, 0⟩) (v.getD (prevIndex v.length i) ⟨0, 0⟩))).length

/-- Even-odd rule over the ring v for a given crossing test: inside when the
number of crossing edges is odd. -/
def parityInside (test : Coord K → Coord K → Bool) (v : List (Coord K)) : Bool :=
  decide (crossingCount test v % 2 = 1)

end SpecSide

section Data
variable (K : Type) [LinearOrderedField K]

/-- The square polygon of the specification, vertices as (lat, lng). -/
def specSquare : List (Coord K) :=
  [⟨0, 0⟩, ⟨0, 10⟩, ⟨10, 10⟩, ⟨10, 0⟩]

/-- Rectangle geofence with latitudes 10..20 and longitudes 100..110, corners
in the order written by the drawing handler: NW, NE, SE, SW. -/
def boxGeofence : Geofence K :=
  { id := "g-box", name := "Geofence 1", type := "rectangle", center := none, radius := none
    coordinates := some [⟨20, 100⟩, ⟨20, 110⟩, ⟨10, 110⟩, ⟨10, 100⟩] }

/-- Geofence whose type is none of the three recognised shapes, carrying
geometry fields of every kind. -/
def hexagonGeofence : Geofence K :=
  { id := "g-hex", name := "Geofence 2", type := "hexagon", center := some ⟨15, 105⟩
    radius := some 1000000, coordinates := some [⟨0, 0⟩, ⟨0, 200⟩, ⟨90, 200⟩, ⟨90, 0⟩] }

/-- Centre of the circular geofence of the specification (Manila). -/
def manilaCentre : Coord K :=
  ⟨14.5995, 120.9842⟩

/-- Circular geofence of radius 50 m centred at (14.5995, 120.9842). -/
def manilaCircle : Geofence K :=
  { id := "g-manila", name := "Geofence 1", type := "circle", center := some (manilaCentre K)
    radius := some 50, coordinates := none }

end Data

/-- A user of the dashboard, for the concrete runs. -/
def sampleUser : User :=
  { uid := "u1", name := "Ana" }

/-- Clock readings of a click at the instant t on the day named day, all
readings falling in the same millisecond. -/
def clockAt (t : Int) (day : String) : ClockReads :=
  { idNow := t, stampNow := t, dateString := day, durationNow := t }


section Runs
variable (K : Type) [LinearOrderedField K]

/-- Session state once a position at the Manila centre has been received and
no geofence exists: location available, nobody clocked in. -/
def readyState : DashState K :=
  { (initialState none none [] : DashState K) with
    currentLocation := some (manilaCentre K)
    locationAccuracy := some 10 }

/-- Millisecond timestamp used as T0 in the concrete runs. -/
def sampleT0 : Int := 1762416000000

/-- The state readyState after a successful Time In at T0. -/
def clockedInState : DashState K :=
  (handleTimeIn sampleUser (clockAt sampleT0 "Fri Nov 06 2026") true (readyState K)).2

/-- The time-in record written by that Time In. -/
def sampleShift : AttendanceRecord K :=
  { id := sampleT0, userId := "u1", userName := "Ana", type := "time-in"
    timestamp := sampleT0, location := manilaCentre K, accuracy := some 10
    date := "Fri Nov 06 2026", shiftDuration := none }

/-- Clock readings of a Time Out click 90 minutes after T0 during which the
clock ticks once between the reading for the timestamp and the reading for the
shift duration. -/
def tickingClock : ClockReads :=
  { idNow := sampleT0 + 5400000, stampNow := sampleT0 + 5400000
    dateString := "Fri Nov 06 2026", durationNow := sampleT0 + 5400001 }

variable {K}

/-- The session in which the first position arrives through the callback
registered on mount (whose closure holds the initial, empty geofence list) and
loadGeofences then delivers the Manila circle. -/
def lateLoadState (M : MathOps K) : DashState K :=
  run M sampleUser (initialState none none [])
    [Event.position [] (manilaCentre K) 10, Event.geofencesLoaded [manilaCircle K]]

end Runs

section Reload
variable (K : Type) [LinearOrderedField K]

/-- A shift marker left in localStorage by a Time In on the previous day. -/
def yesterdayShift : AttendanceRecord K :=
  { id := sampleT0 - 86400000, userId := "u1", userName := "Ana", type := "time-in"
    timestamp := sampleT0 - 86400000, location := manilaCentre K, accuracy := some 10
    date := "Thu Nov 05 2026", shiftDuration := none }

end Reload

section HaversineSpec
variable {K : Type} [LinearOrderedField K]

/-- Haversine formula in the words of the specification: with the latitudes
in radians (degrees times pi / 180) and the latitude and longitude differences
in radians, a = sin²(dφ/2) + cos φ1 · cos φ2 · sin²(dλ/2) and the distance is
2 · R · atan2(√a, √(1 − a)) with R = 6 371 000 m. -/
def haversineSpec (M : MathOps K) (p1 p2 : Coord K) : K :=
  let R : K := 6371000
  let rad : K := M.PI / 180
  let φ1 := p1.lat * rad
  let φ2 := p2.lat * rad
  let dφ := (p2.lat - p1.lat) * rad
  let dl := (p2.lng - p1.lng) * rad
  let a := M.sin (dφ / 2) ^ 2 + M.cos φ1 * M.cos φ2 * M.sin (dl / 2) ^ 2
  2 * R * M.atan2 (M.sqrt a) (M.sqrt (1 - a))

end HaversineSpec

section BoundingBox
variable {K : Type} [LinearOrderedField K]

/-- Membership of a location in the axis-aligned bounding box of four corners:
the bounds are the minimum and the maximum of the latitudes and of the
longitudes over all four corners, and are inclusive. -/
def inBoundingBox4 (c0 c1 c2 c3 location : Coord K) : Prop :=
  (min (min c0.lat c1.lat) (min c2.lat c3.lat) ≤ location.lat ∧
    location.lat ≤ max (max c0.lat c1.lat) (max c2.lat c3.lat)) ∧
  (min (min c0.lng c1.lng) (min c2.lng c3.lng) ≤ location.lng ∧
    location.lng ≤ max (max c0.lng c1.lng) (max c2.lng c3.lng))

/-- Membership of a location in the axis-aligned box spanned by two corners. -/
def inBox2 (c0 c2 location : Coord K) : Prop :=
  (min c0.lat c2.lat ≤ location.lat ∧ location.lat ≤ max c0.lat c2.lat) ∧
  (min c0.lng c2.lng ≤ location.lng ∧ location.lng ≤ max c0.lng c2.lng)

variable (K)

/-- A rectangle rotated by 45 degrees, stored as its four corners
(0,5), (5,10), (10,5), (5,0); its bounding box is 0..10 by 0..10. -/
def diamondGeofence : Geofence K :=
  { id := "g-diamond", name := "Geofence 3", type := "rectangle", center := none, radius := none
    coordinates := some [⟨0, 5⟩, ⟨5, 10⟩, ⟨10, 5⟩, ⟨5, 0⟩] }

end BoundingBox

/-! ## utils.js: shift schedule -/

/-- UTF-16 code units of a string, the sequence that JavaScript compares:
a code point below 65536 is one unit, any other is a surrogate pair. -/
def utf16Units (s : String) : List Nat :=
  s.data.flatMap fun c =>
    if c.val.toNat < 65536 then [c.val.toNat]
    else [55296 + (c.val.toNat - 65536) / 1024, 56320 + (c.val.toNat - 65536) % 1024]

/-- Lexicographic comparison of two sequences of code units: the first
differing unit decides, and a proper beginning of a sequence is smaller. -/
def unitsLe : List Nat → List Nat → Bool
  | [], _ => true
  | _ :: _, [] => false
  | x :: xs, y :: ys => if x < y then true else if x = y then unitsLe xs ys else false

/-- The JavaScript comparison a <= b of two strings; a >= b is b <= a. -/
def jsStringLe (a b : String) : Bool :=
  unitsLe (utf16Units a) (utf16Units b)

/-- One window of the shift schedule: the objects morning and evening, with
their fields start and end. -/
structure ShiftWindow where
  start : String
  finish : String
deriving DecidableEq, Repr

/-- The state shiftSchedule of the dashboard. -/
structure ShiftSchedule where
  morning : ShiftWindow
  evening : ShiftWindow
deriving DecidableEq, Repr

/-- Source: getCurrentShiftType, utils.js lines 50-60; currentTime is the
value of now.toTimeString().slice(0, 5). -/
def getCurrentShiftType (currentTime : String) (shiftSchedule : ShiftSchedule) : String :=
  if jsStringLe shiftSchedule.morning.start currentTime &&
      jsStringLe currentTime shiftSchedule.morning.finish then
    "Morning Shift"
  else if jsStringLe shiftSchedule.evening.start currentTime &&
      jsStringLe currentTime shiftSchedule.evening.finish then
    "Evening Shift"
  else
    "Outside Shift Hours"

/-- The initial schedule of the dashboard: 08:00-12:00 and 13:00-17:00. -/
def defaultSchedule : ShiftSchedule :=
  { morning := { start := "08:00", finish := "12:00" }
    evening := { start := "13:00", finish := "17:00" } }

/-- A schedule whose windows overlap between 11:00 and 12:00. -/
def overlappingSchedule : ShiftSchedule :=
  { morning := { start := "08:00", finish := "12:00" }
    evening := { start := "11:00", finish := "17:00" } }

/-- Lexicographic order of two strings by their UTF-16 code units, in the
words of the specification (lexicographic string comparison). -/
def lexLe (a b : String) : Prop :=
  utf16Units a ≤ utf16Units b

/-- Source: formatDuration, utils.js lines 37-41, for a non-negative whole
number of milliseconds (exact integer arithmetic). -/
def formatDuration (milliseconds : Nat) : String :=
  let hours := milliseconds / (1000 * 60 * 60)
  let minutes := (milliseconds % (1000 * 60 * 60)) / (1000 * 60)
  toString hours ++ "h " ++ toString minutes ++ "m"

section Drawing
variable {K : Type} [LinearOrderedField K]

/-- The corner list written by the overlaycomplete listener and by
handleShapeEdit for a rectangle, Dashboard.jsx lines 448-455 and 548-557, from
the north-east and south-west corners of the bounds of the shape. -/
def boundsCorners (northEast southWest : Coord K) : List (Coord K) :=
  [ ⟨northEast.lat, southWest.lng⟩
  , ⟨northEast.lat, northEast.lng⟩
  , ⟨southWest.lat, northEast.lng⟩
  , ⟨southWest.lat, southWest.lng⟩ ]

/-- The rectangle geofence stored by the overlaycomplete listener and
saveGeofence: the type is the lower-cased overlay type, the id is the id of
the new document. -/
def overlayRectangle (docId name : String) (northEast southWest : Coord K) : Geofence K :=
  { id := docId, name := name, type := "rectangle", center := none, radius := none
    coordinates := some (boundsCorners northEast southWest) }

/-- The object updatedData built by handleShapeEdit for a rectangle. -/
def rectangleEdit (northEast southWest : Coord K) : GeofenceUpdate K :=
  { center := none, radius := none, coordinates := some (boundsCorners northEast southWest) }

/-- Division that records a zero divisor as a failure. -/
def divChecked (x y : K) : Option K :=
  if y = 0 then none else some (x / y)

/-- The condition of isPointInPolygon with the division checked: the second
conjunct, and with it the division, is evaluated only when the first conjunct
holds. -/
def edgeConditionChecked (point vi vj : Coord K) : Option Bool :=
  if decide (vi.lat > point.lat) != decide (vj.lat > point.lat) then
    (divChecked ((vj.lng - vi.lng) * (point.lat - vi.lat)) (vj.lat - vi.lat)).map
      fun q => decide (point.lng < q + vi.lng)
  else
    some false

/-- One iteration of the loop of isPointInPolygon with checked index reads
and checked division. -/
def polygonStepChecked (point : Coord K) (coordinates : List (Coord K))
    (st : Option (Bool × Nat)) (i : Nat) : Option (Bool × Nat) :=
  match st with
  | none => none
  | some (inside, j) =>
    match coordinates[i]?, coordinates[j]? with
    | some vi, some vj =>
      (edgeConditionChecked point vi vj).map fun c => (if c then !inside else inside, i)
    | _, _ => none

/-- The function isPointInPolygon with every index read and every division
checked; none stands for a read outside the list or a division by zero. -/
def isPointInPolygonChecked (point : Coord K) (coordinates : List (Coord K)) : Option Bool :=
  ((List.range coordinates.length).foldl (polygonStepChecked point coordinates)
    (some (false, coordinates.length - 1))).map Prod.fst

/-- The local constant a of getDistanceBetweenPoints, evaluated with the exact
operations of K: the value of the source expression when no operation rounds.
The value that double arithmetic gives is haversineTermRounded. -/
def haversineTerm (M : MathOps K) (point1 point2 : Coord K) : K :=
  M.sin ((point2.lat - point1.lat) * M.PI / 180 / 2) *
      M.sin ((point2.lat - point1.lat) * M.PI / 180 / 2) +
    M.cos (point1.lat * M.PI / 180) * M.cos (point2.lat * M.PI / 180) *
      M.sin ((point2.lng - point1.lng) * M.PI / 180 / 2) *
      M.sin ((point2.lng - point1.lng) * M.PI / 180 / 2)

end Drawing

/-! ## Dashboard.jsx: handlers split at the await, location watch -/

/-- What an invocation of handleTimeIn or handleTimeOut holds while its
awaited addDoc is pending: the record it built and the attendanceRecords of
the render it was invoked from, which its saveAttendanceRecord will use. -/
structure PendingAppend (K : Type) where
  record : AttendanceRecord K
  seenRecords : List (AttendanceRecord K)
deriving DecidableEq

section Phases
variable {K : Type}

/-- The part of handleTimeIn before the await, Dashboard.jsx lines 291-308:
the guards, read from the state of the render, and the record literal.  A
rejection is returned on the left, the pending append on the right. -/
def timeInBegin (user : User) (clock : ClockReads) (s : DashState K) :
    Outcome ⊕ PendingAppend K :=
  match s.currentLocation with
  | none => Sum.inl Outcome.locationUnavailable
  | some currentLocation =>
    if (!s.isInsideGeofence) && decide (s.geofences.length > 0) then
      Sum.inl Outcome.outsideWorkArea
    else if s.currentShift.isSome then
      Sum.inl Outcome.alreadyClockedIn
    else
      Sum.inr
        { record :=
            { id := clock.idNow, userId := user.uid, userName := user.name, type := "time-in"
              timestamp := clock.stampNow, location := currentLocation
              accuracy := s.locationAccuracy, date := clock.dateString
              shiftDuration := none }
          seenRecords := s.attendanceRecords }

/-- The part of handleTimeIn after the await, Dashboard.jsx lines 310-320,
applied to the state in which addDoc settles. -/
def timeInResume (pending : PendingAppend K) (addDocOk : Bool) (s : DashState K) :
    Outcome × DashState K :=
  if addDocOk then
    let updated := pending.seenRecords ++ [pending.record]
    (Outcome.success,
      { s with
        remoteAttendance := s.remoteAttendance ++ [pending.record]
        attendanceRecords := updated
        storedAttendance := some updated
        currentShift := some pending.record
        storedShift := some pending.record })
  else
    (Outcome.storageError, s)

/-- The part of handleTimeOut before the await, Dashboard.jsx lines 324-342. -/
def timeOutBegin (user : User) (clock : ClockReads) (s : DashState K) :
    Outcome ⊕ PendingAppend K :=
  match s.currentLocation with
  | none => Sum.inl Outcome.locationUnavailable
  | some currentLocation =>
    if (!s.isInsideGeofence) && decide (s.geofences.length > 0) then
      Sum.inl Outcome.outsideWorkArea
    else
      match s.currentShift with
      | none => Sum.inl Outcome.notClockedIn
      | some currentShift =>
        Sum.inr
          { record :=
              { id := clock.idNow, userId := user.uid, userName := user.name, type := "time-out"
                timestamp := clock.stampNow, location := currentLocation
                accuracy := s.locationAccuracy, date := clock.dateString
                shiftDuration := some (clock.durationNow - currentShift.timestamp) }
            seenRecords := s.attendanceRecords }

/-- The part of handleTimeOut after the await, Dashboard.jsx lines 344-354. -/
def timeOutResume (pending : PendingAppend K) (addDocOk : Bool) (s : DashState K) :
    Outcome × DashState K :=
  if addDocOk then
    let updated := pending.seenRecords ++ [pending.record]
    (Outcome.success,
      { s with
        remoteAttendance := s.remoteAttendance ++ [pending.record]
        attendanceRecords := updated
        storedAttendance := some updated
        currentShift := none
        storedShift := none })
  else
    (Outcome.storageError, s)

/-- The disabled attribute of the Time In button, AttendanceTab.jsx line 29. -/
def timeInButtonDisabled (s : DashState K) : Bool :=
  s.currentLocation.isNone || s.currentShift.isSome

end Phases

/-- The location watch of the dashboard: the ref watchIdRef, the state
isTracking, and the watches registered with the positioning sensor by
startLocationTracking that have not been cleared. -/
structure TrackState where
  watchIdRef : Option Int
  isTracking : Bool
  activeWatches : List Int
deriving DecidableEq, Repr

/-- State of the watch on mount. -/
def TrackState.initial : TrackState :=
  { watchIdRef := none, isTracking := false, activeWatches := [] }

/-- Source: startLocationTracking, Dashboard.jsx lines 248-270.  supported
tells whether navigator.geolocation exists; handle is the value returned by
watchPosition. -/
def startLocationTracking (supported : Bool) (handle : Int) (s : TrackState) : TrackState :=
  if !supported then s
  else
    { watchIdRef := some handle
      isTracking := true
      activeWatches := s.activeWatches ++ [handle] }

/-- Source: stopLocationTracking, Dashboard.jsx lines 272-278.  The test
if (watchIdRef.current) fails for null and for the number 0. -/
def stopLocationTracking (s : TrackState) : TrackState :=
  match s.watchIdRef with
  | some handle =>
    if handle ≠ 0 then
      { watchIdRef := none
        isTracking := false
        activeWatches := s.activeWatches.filter (fun w => w != handle) }
    else
      { s with isTracking := false }
  | none => { s with isTracking := false }

/-- A call of one of the two tracking functions. -/
inductive TrackCall where
  | start (handle : Int)
  | stop
deriving DecidableEq, Repr

/-- Effect of one call. -/
def trackStep (supported : Bool) (s : TrackState) : TrackCall → TrackState
  | TrackCall.start handle => startLocationTracking supported handle s
  | TrackCall.stop => stopLocationTracking s

/-- State after a sequence of calls. -/
def trackRun (supported : Bool) (s : TrackState) (calls : List TrackCall) : TrackState :=
  calls.foldl (trackStep supported) s

/-- A sequence of calls as the Location tab issues them: the button calls
startLocationTracking only while isTracking is false, and the sensor returns
non-zero handles. -/
def toggled (supported : Bool) : TrackState → List TrackCall → Bool
  | _, [] => true
  | s, TrackCall.start handle :: calls =>
    ((!s.isTracking) && decide (handle ≠ 0)) &&
      toggled supported (trackStep supported s (TrackCall.start handle)) calls
  | s, TrackCall.stop :: calls => toggled supported (trackStep supported s TrackCall.stop) calls

/-! ## LocationTab.jsx: display names -/

/-- The two String methods used by getDisplayNameFactory. -/
structure StringOps where
  trim : String → String
  toLowerCase : String → String

/-- Removal of the white space at both ends of a string. -/
def asciiTrim (s : String) : String :=
  String.mk (((s.data.dropWhile Char.isWhitespace).reverse.dropWhile Char.isWhitespace).reverse)

/-- Lower-casing of the letters A-Z of a string. -/
def asciiLower (s : String) : String :=
  String.mk (s.data.map Char.toLower)

/-- Interpretation of trim and toLowerCase that agrees with JavaScript on
ASCII strings. -/
def asciiStringOps : StringOps :=
  { trim := asciiTrim, toLowerCase := asciiLower }

/-- Source: the closure returned by getDisplayNameFactory, LocationTab.jsx
lines 30-36, with the Map counts passed in and returned.  A missing or empty
rawName is falsy; an absent key counts as 0. -/
def getDisplayName (ops : StringOps) (counts : List (String × Nat)) (rawName fallback : String) :
    String × List (String × Nat) :=
  let name := if rawName ≠ "" ∧ ops.trim rawName ≠ "" then ops.trim rawName else fallback
  let key := ops.toLowerCase name
  let n := (counts.lookup key).getD 0 + 1
  let counts1 := (key, n) :: counts
  (if n = 1 then name else name ++ " (" ++ toString n ++ ")", counts1)

/-- The display names computed by the geofence list of the Location tab,
LocationTab.jsx lines 522-525, with a fresh getDisplayName: the names are
taken in list order, the fallback of the entry at index i is Geofence i+1. -/
def displayNamesFrom (ops : StringOps) :
    List (String × Nat) → Nat → List String → List String
  | _, _, [] => []
  | counts, index, rawName :: rest =>
    let r := getDisplayName ops counts rawName ("Geofence " ++ toString (index + 1))
    r.1 :: displayNamesFrom ops r.2 (index + 1) rest

/-- Display names of a list of geofence names, from empty counts. -/
def displayNames (ops : StringOps) (rawNames : List String) : List String :=
  displayNamesFrom ops [] 0 rawNames

/-! ### The haversine term in IEEE-754 double arithmetic

JavaScript numbers are IEEE-754 doubles: every arithmetic operation returns
the double nearest to the exact result.  For the local constant a of
getDistanceBetweenPoints this rounding is modelled explicitly.  A finite
double is held as the rational number it denotes. -/

section Rounding

/-- Number of halvings that bring n below 2, at most fuel of them; with
fuel n this is the integer part of the binary logarithm of n. -/
def halvings : Nat → Nat → Nat
  | 0, _ => 0
  | fuel + 1, n => if n < 2 then 0 else halvings fuel (n / 2) + 1

/-- Integer part of the binary logarithm of a non-zero rational x: the
exponent e with 2 ^ e ≤ |x| < 2 ^ (e + 1). -/
def binaryExponent (x : ℚ) : Int :=
  let k : Int := (halvings x.num.natAbs x.num.natAbs : Int) - (halvings x.den x.den : Int)
  if |x| < (2 : ℚ) ^ k then k - 1 else k

/-- Nearest integer to q, a tie going to the even neighbour. -/
def roundHalfEven (q : ℚ) : Int :=
  let f : Int := ⌊q⌋
  if q - f < 1 / 2 then f
  else if 1 / 2 < q - f then f + 1
  else if f % 2 = 0 then f else f + 1

/-- IEEE-754 binary64 rounding of an exact result (round to nearest, ties to
even, 53 significant bits): for 2^e ≤ |x| < 2^(e+1) the result is the multiple
of 2^(e-52) nearest to x (roundDouble_spec).  The exponent range is not
limited: overflow to Infinity and subnormal numbers are outside the model. -/
def roundDouble (x : ℚ) : ℚ :=
  if x = 0 then 0
  else (roundHalfEven (x / (2 : ℚ) ^ (binaryExponent x - 52)) : ℚ) *
    (2 : ℚ) ^ (binaryExponent x - 52)

/-- The double Math.PI, 3.141592653589793 (bits 0x400921FB54442D18). -/
def piDouble : ℚ := 884279719003555 / 2 ^ 48

end Rounding

section Series
variable {K : Type} [LinearOrderedField K]

/-- Sum of the first n terms of the sine series
x - x^3 / 3! + x^5 / 5! - ... -/
def sinSeries (x : K) : Nat → K
  | 0 => 0
  | n + 1 => sinSeries x n + (-1) ^ n * x ^ (2 * n + 1) / ((2 * n + 1).factorial : K)

/-- Sum of the first n terms of the cosine series
1 - x^2 / 2! + x^4 / 4! - ... -/
def cosSeries (x : K) : Nat → K
  | 0 => 0
  | n + 1 => cosSeries x n + (-1) ^ n * x ^ (2 * n) / ((2 * n).factorial : K)

/-- The local constant a of getDistanceBetweenPoints with the result of every
arithmetic operation passed through rnd, in the order in which JavaScript
evaluates the source expression; PI, sin and cos stand for Math.PI, Math.sin
and Math.cos.  With rnd the identity this is haversineTerm. -/
def haversineTermRounded (rnd : K → K) (PI : K) (sin cos : K → K)
    (point1 point2 : Coord K) : K :=
  let φ1 := rnd (rnd (point1.lat * PI) / 180)
  let φ2 := rnd (rnd (point2.lat * PI) / 180)
  let Δφ := rnd (rnd (rnd (point2.lat - point1.lat) * PI) / 180)
  let Δlng := rnd (rnd (rnd (point2.lng - point1.lng) * PI) / 180)
  rnd (rnd (sin (rnd (Δφ / 2)) * sin (rnd (Δφ / 2))) +
    rnd (rnd (rnd (cos φ1 * cos φ2) * sin (rnd (Δlng / 2))) * sin (rnd (Δlng / 2))))

end Series

section DoubleMath

/-- Math.sin on doubles, modelled as the correctly rounded sine: the series is
summed exactly to 20 terms (for |x| ≤ 2 within 1e-35 of the sine, see
series_approx) and the sum is rounded to the nearest double. -/
def sinDouble (x : ℚ) : ℚ := roundDouble (sinSeries x 20)

/-- Math.cos on doubles, modelled as the correctly rounded cosine, in the same
way as sinDouble. -/
def cosDouble (x : ℚ) : ℚ := roundDouble (cosSeries x 20)

/-- The double that the source obtains for 8 degrees in radians,
8 * Math.PI / 180 = 0.13962634015954636. -/
def eightDegrees : ℚ := roundDouble (roundDouble (8 * piDouble) / 180)

end DoubleMath

/-! ## Theorems -/

section GeometryFacts
variable {K : Type} [LinearOrderedField K]

theorem edgeCondition_eq_crossesHalfOpen (p vi vj : Coord K) :
    edgeCondition p vi vj = crossesHalfOpen p vi vj := by
  have hl : (vj.lng - vi.lng) * (p.lat - vi.lat) / (vj.lat - vi.lat) + vi.lng
      = edgeLngAt vi vj p.lat := by
    unfold edgeLngAt
    rw [mul_div_assoc, add_comm]
  rw [Bool.eq_iff_iff]
  simp only [edgeCondition, crossesHalfOpen, hl, Bool.and_eq_true, bne_iff_ne, ne_eq,
    decide_eq_true_eq, decide_eq_decide, gt_iff_lt]
  constructor
  · rintro ⟨h1, h2⟩
    refine ⟨?_, h2⟩
    by_cases hi : p.lat < vi.lat
    · right
      refine ⟨?_, hi⟩
      by_contra hj
      exact h1 ⟨fun _ => not_le.mp hj, fun _ => hi⟩
    · left
      refine ⟨not_lt.mp hi, ?_⟩
      by_contra hj
      exact h1 ⟨fun h => absurd h hi, fun h => absurd h hj⟩
  · rintro ⟨h1, h2⟩
    refine ⟨?_, h2⟩
    rcases h1 with ⟨ha, hb⟩ | ⟨ha, hb⟩
    · intro h
      exact absurd (h.mpr hb) (not_lt.mpr ha)
    · intro h
      exact absurd (h.mp hb) (not_lt.mpr ha)

theorem foldl_polygonStep (p : Coord K) (v : List (Coord K)) (k : Nat) :
    (List.range k).foldl (polygonStep p v) (false, v.length - 1)
      = (decide (((List.range k).filter
            (fun i => edgeCondition p (v.getD i ⟨0, 0⟩)
              (v.getD (prevIndex v.length i) ⟨0, 0⟩))).length % 2 = 1),
         prevIndex v.length k) := by
  induction k with
  | zero => simp [prevIndex]
  | succ k ih =>
    rw [List.range_succ, List.foldl_append, ih, List.filter_append, List.length_append]
    simp only [List.foldl_cons, List.foldl_nil, polygonStep, List.filter_cons, List.filter_nil]
    have hp : prevIndex v.length (k + 1) = k := by simp [prevIndex]
    rw [hp]
    by_cases hc : edgeCondition p (v.getD k ⟨0, 0⟩) (v.getD (prevIndex v.length k) ⟨0, 0⟩) = true
    · simp only [hc, if_true, List.length_cons, List.length_nil]
      congr 1
      rw [Bool.eq_iff_iff]
      simp only [Bool.not_eq_true', decide_eq_false_iff_not, decide_eq_true_eq]
      omega
    · simp only [hc, if_false, List.length_nil]
      simp

end GeometryFacts

section GeometryClaims
variable {K : Type} [LinearOrderedField K]

theorem checkGeofenceStatus_fold (M : MathOps K) (location : Coord K)
    (gs : List (Geofence K)) (acc : Bool) :
    gs.foldlM
        (fun insideAny geofence =>
          (isLocationInsideGeofence M location geofence).map
            (fun r => if r then true else insideAny)) acc
      = if gs.any (fun g => (isLocationInsideGeofence M location g).isNone) then none
        else some (acc || gs.any (fun g => isLocationInsideGeofence M location g == some true)) := by
  induction gs generalizing acc with
  | nil => simp
  | cons g gs ih =>
    rw [List.foldlM_cons]
    cases hg : isLocationInsideGeofence M location g with
    | none => simp [hg]
    | some r =>
      simp only [Option.map_some', Option.some_bind, Option.bind_eq_bind, ih, List.any_cons, hg,
        Option.isNone_some, Bool.false_or]
      cases r <;> cases acc <;> simp

theorem checkGeofenceStatus_eq (M : MathOps K) (location : Coord K) (gs : List (Geofence K)) :
    checkGeofenceStatus M gs location
      = if gs.any (fun g => (isLocationInsideGeofence M location g).isNone) then none
        else some (gs.any (fun g => isLocationInsideGeofence M location g == some true)) := by
  unfold checkGeofenceStatus
  rw [checkGeofenceStatus_fold]
  simp

theorem any_perm {α : Type} (p : α → Bool) {l l' : List α} (h : l.Perm l') :
    l.any p = l'.any p := by
  rw [Bool.eq_iff_iff, List.any_eq_true, List.any_eq_true]
  constructor
  · rintro ⟨x, hx, hp⟩
    exact ⟨x, h.mem_iff.mp hx, hp⟩
  · rintro ⟨x, hx, hp⟩
    exact ⟨x, h.mem_iff.mpr hx, hp⟩

/-- C1: isPointInCircle is true exactly when the distance from the point to
the centre is at most the radius; a point at distance exactly the radius is
inside, and the result is false exactly when the distance exceeds the radius. -/
theorem isPointInCircle_iff_distance_le (M : MathOps K) (point center : Coord K) (radius : K) :
    (isPointInCircle M point center radius = true ↔
        getDistanceBetweenPoints M point center ≤ radius) ∧
    isPointInCircle M point center (getDistanceBetweenPoints M point center) = true ∧
    (isPointInCircle M point center radius = false ↔
        radius < getDistanceBetweenPoints M point center) := by
  refine ⟨?_, ?_, ?_⟩
  · simp [isPointInCircle]
  · simp [isPointInCircle]
  · simp [isPointInCircle]

/-- C2: for a geofence of type rectangle with four corners, membership is the
inclusive test of the location against the minimum and maximum of the
latitudes and of the longitudes of corners 0 and 2; corners 1 and 3 do not
influence the result. -/
theorem rectangle_membership_corners_0_2 (M : MathOps K) (location : Coord K)
    (g : Geofence K) (c0 c1 c2 c3 : Coord K)
    (hty : g.type = "rectangle") (hco : g.coordinates = some [c0, c1, c2, c3]) :
    (∃ b, isLocationInsideGeofence M location g = some b ∧
      (b = true ↔
        (min c0.lat c2.lat ≤ location.lat ∧ location.lat ≤ max c0.lat c2.lat) ∧
        (min c0.lng c2.lng ≤ location.lng ∧ location.lng ≤ max c0.lng c2.lng))) ∧
    ∀ (g' : Geofence K) (d1 d3 : Coord K), g'.type = "rectangle" →
      g'.coordinates = some [c0, d1, c2, d3] →
      isLocationInsideGeofence M location g' = isLocationInsideGeofence M location g := by
  have key : ∀ (h : Geofence K) (e1 e3 : Coord K), h.type = "rectangle" →
      h.coordinates = some [c0, e1, c2, e3] →
      isLocationInsideGeofence M location h
        = some (decide (location.lat ≥ min c0.lat c2.lat) &&
              decide (location.lat ≤ max c0.lat c2.lat) &&
              decide (location.lng ≥ min c0.lng c2.lng) &&
              decide (location.lng ≤ max c0.lng c2.lng)) := by
    intro h e1 e3 h1 h2
    simp [isLocationInsideGeofence, h1, h2]
  refine ⟨⟨_, key g c1 c3 hty hco, ?_⟩, ?_⟩
  · simp only [Bool.and_eq_true, decide_eq_true_eq, ge_iff_le]
    tauto
  · intro g' d1 d3 h1 h2
    rw [key g' d1 d3 h1 h2, key g c1 c3 hty hco]

/-- Witness for C2: the box with latitudes 10..20 and longitudes 100..110
contains (10, 100) and (20, 110) and does not contain (9.999, 105). -/
theorem rectangle_membership_box_witness :
    isLocationInsideGeofence realMath ⟨10, 100⟩ (boxGeofence ℝ) = some true ∧
    isLocationInsideGeofence realMath ⟨20, 110⟩ (boxGeofence ℝ) = some true ∧
    isLocationInsideGeofence realMath ⟨9.999, 105⟩ (boxGeofence ℝ) = some false := by
  refine ⟨?_, ?_, ?_⟩
  · obtain ⟨b, hb, hiff⟩ := (rectangle_membership_corners_0_2 realMath ⟨10, 100⟩ (boxGeofence ℝ)
      ⟨20, 100⟩ ⟨20, 110⟩ ⟨10, 110⟩ ⟨10, 100⟩ rfl rfl).1
    rw [hb, Option.some_inj, hiff]
    norm_num
  · obtain ⟨b, hb, hiff⟩ := (rectangle_membership_corners_0_2 realMath ⟨20, 110⟩ (boxGeofence ℝ)
      ⟨20, 100⟩ ⟨20, 110⟩ ⟨10, 110⟩ ⟨10, 100⟩ rfl rfl).1
    rw [hb, Option.some_inj, hiff]
    norm_num
  · obtain ⟨b, hb, hiff⟩ := (rectangle_membership_corners_0_2 realMath ⟨9.999, 105⟩ (boxGeofence ℝ)
      ⟨20, 100⟩ ⟨20, 110⟩ ⟨10, 110⟩ ⟨10, 100⟩ rfl rfl).1
    rw [hb, Option.some_inj, ← Bool.not_eq_true, hiff]
    norm_num

end GeometryClaims

section GeometryClaims2
variable {K : Type} [LinearOrderedField K]

/-- C3 (as stated, refuted): with the test "strictly between", the parity of
the crossing edges differs from isPointInPolygon at the point (0, 5) of the
square of the specification: the code answers inside, the parity says outside. -/
theorem strict_parity_differs_on_square_edge :
    isPointInPolygon (⟨0, 5⟩ : Coord ℚ) (specSquare ℚ) = true ∧
    parityInside (crossesStrict (⟨0, 5⟩ : Coord ℚ)) (specSquare ℚ) = false := by
  constructor
  · simp [isPointInPolygon, specSquare, List.range_succ, polygonStep, edgeCondition]
    norm_num
  · simp [parityInside, crossingCount, specSquare, List.range_succ, prevIndex, crossesStrict,
      edgeLngAt, List.filter_cons]

/-- C3 (amended): isPointInPolygon equals the parity (odd = inside) of the
number of edges (v[i], v[j]), j the previous index with wrap-around, for which
the latitude of p is at least the smaller and strictly less than the larger of
the two vertex latitudes and the longitude of p is less than the longitude of
the edge linearly interpolated at the latitude of p. -/
theorem isPointInPolygon_eq_halfOpen_parity (p : Coord K) (v : List (Coord K)) :
    isPointInPolygon p v = parityInside (crossesHalfOpen p) v := by
  unfold isPointInPolygon parityInside crossingCount
  rw [foldl_polygonStep]
  simp only [edgeCondition_eq_crossesHalfOpen]

/-- C4: for a geofence whose type is none of circle, rectangle, polygon,
isLocationInsideGeofence returns false and does not throw, whatever the other
fields are. -/
theorem unknown_type_returns_false (M : MathOps K) (location : Coord K) (g : Geofence K)
    (hc : g.type ≠ "circle") (hr : g.type ≠ "rectangle") (hp : g.type ≠ "polygon") :
    isLocationInsideGeofence M location g = some false := by
  simp [isLocationInsideGeofence, hc, hr, hp]

/-- Witness for C4: a geofence of type hexagon that carries a centre, a radius
and coordinates around the location. -/
theorem unknown_type_returns_false_witness :
    isLocationInsideGeofence realMath ⟨15, 105⟩ (hexagonGeofence ℝ) = some false :=
  unknown_type_returns_false realMath ⟨15, 105⟩ (hexagonGeofence ℝ)
    (by decide) (by decide) (by decide)

/-- C5: the flag computed by checkGeofenceStatus is false for the empty
collection; for a collection on which isLocationInsideGeofence does not throw
it is true exactly when the location is inside at least one geofence; and it
does not depend on the order of the collection. -/
theorem checkGeofenceStatus_iff_exists (M : MathOps K) (location : Coord K) :
    checkGeofenceStatus M [] location = some false ∧
    (∀ gs : List (Geofence K),
      (∀ g ∈ gs, isLocationInsideGeofence M location g ≠ none) →
      ∃ b, checkGeofenceStatus M gs location = some b ∧
        (b = true ↔ ∃ g ∈ gs, isLocationInsideGeofence M location g = some true)) ∧
    (∀ gs gs' : List (Geofence K), gs.Perm gs' →
      checkGeofenceStatus M gs location = checkGeofenceStatus M gs' location) := by
  refine ⟨?_, ?_, ?_⟩
  · simp [checkGeofenceStatus_eq]
  · intro gs hgs
    have hnone : gs.any (fun g => (isLocationInsideGeofence M location g).isNone) = false := by
      rw [Bool.eq_false_iff]
      intro h
      rw [List.any_eq_true] at h
      obtain ⟨g, hg, hn⟩ := h
      exact hgs g hg (Option.isNone_iff_eq_none.mp hn)
    refine ⟨_, by rw [checkGeofenceStatus_eq, hnone]; rfl, ?_⟩
    simp [List.any_eq_true]
  · intro gs gs' h
    rw [checkGeofenceStatus_eq, checkGeofenceStatus_eq, any_perm _ h, any_perm _ h]

/-- Witness for C5: at (10, 100) the collection made of the hexagon-typed
geofence and the box evaluates without error and the flag is true. -/
theorem checkGeofenceStatus_iff_exists_witness :
    ∃ b, checkGeofenceStatus realMath [hexagonGeofence ℝ, boxGeofence ℝ] ⟨10, 100⟩ = some b ∧
      (b = true ↔ ∃ g ∈ [hexagonGeofence ℝ, boxGeofence ℝ],
        isLocationInsideGeofence realMath ⟨10, 100⟩ g = some true) :=
  (checkGeofenceStatus_iff_exists realMath ⟨10, 100⟩).2.1 [hexagonGeofence ℝ, boxGeofence ℝ]
    (by
      intro g hg
      simp only [List.mem_cons, List.mem_singleton, List.not_mem_nil, or_false] at hg
      rcases hg with rfl | rfl
      · simp [isLocationInsideGeofence, hexagonGeofence]
      · simp [isLocationInsideGeofence, boxGeofence])

end GeometryClaims2

section GuardFacts
variable {K : Type}

theorem guard_passes_iff (s : DashState K) :
    ((!s.isInsideGeofence) && decide (s.geofences.length > 0)) = false ↔
      (s.isInsideGeofence = true ∨ s.geofences = []) := by
  cases hf : s.isInsideGeofence <;> cases hg : s.geofences <;> simp

theorem handleTimeIn_currentShift_isSome (user : User) (clock : ClockReads) (ok : Bool)
    (s : DashState K) (h : s.currentShift.isSome = true) :
    (handleTimeIn user clock ok s).2 = s := by
  unfold handleTimeIn
  cases hl : s.currentLocation with
  | none => rfl
  | some loc =>
    by_cases hg : ((!s.isInsideGeofence) && decide (s.geofences.length > 0)) = true
    · simp [hg]
    · simp [hg, h]

end GuardFacts

section MachineFacts
variable {K : Type} [LinearOrderedField K]

theorem step_keeps_currentShift (M : MathOps K) (user : User) (s : DashState K) (e : Event K)
    (he : e.isTimeOut = false) (h : s.currentShift.isSome = true) :
    (step M user s e).currentShift.isSome = true := by
  cases e with
  | position seen location accuracy =>
    simp only [step, onPosition]
    cases checkGeofenceStatus M seen location <;> exact h
  | geofencesLoaded data => exact h
  | geofenceSaved g => exact h
  | shapeEdited geofenceId u => exact h
  | geofenceDeleted geofenceId => exact h
  | timeIn clock ok =>
    simp only [step]
    rw [handleTimeIn_currentShift_isSome user clock ok s h]
    exact h
  | timeOut clock ok => simp [Event.isTimeOut] at he

theorem run_keeps_currentShift (M : MathOps K) (user : User) (es : List (Event K))
    (s : DashState K) (hes : ∀ e ∈ es, e.isTimeOut = false)
    (h : s.currentShift.isSome = true) :
    (run M user s es).currentShift.isSome = true := by
  induction es generalizing s with
  | nil => exact h
  | cons e es ih =>
    simp only [run, List.foldl_cons]
    exact ih (step M user s e) (fun e' he' => hes e' (List.mem_cons_of_mem _ he'))
      (step_keeps_currentShift M user s e (hes e (List.mem_cons_self _ _)) h)

end MachineFacts

section MachineClaims
variable {K : Type}

/-- C7: from a state with no active shift, a current location and a passing
geofence guard, a handleTimeIn whose addDoc resolves reports success, appends
exactly one time-in record (current location, current accuracy, the date
string read from the clock) at the end of the in-memory history and of the
remote collection, persists the new history, makes that record the active
shift and the persisted shift marker, and changes nothing else. -/
theorem handleTimeIn_success_appends (user : User) (clock : ClockReads) (s : DashState K)
    (loc : Coord K) (hshift : s.currentShift = none) (hloc : s.currentLocation = some loc)
    (hguard : s.isInsideGeofence = true ∨ s.geofences = []) :
    ∃ record : AttendanceRecord K,
      record.type = "time-in" ∧ record.location = loc ∧
      record.accuracy = s.locationAccuracy ∧ record.date = clock.dateString ∧
      record.timestamp = clock.stampNow ∧ record.userId = user.uid ∧
      record.shiftDuration = none ∧
      handleTimeIn user clock true s =
        (Outcome.success,
          { s with
            attendanceRecords := s.attendanceRecords ++ [record]
            storedAttendance := some (s.attendanceRecords ++ [record])
            remoteAttendance := s.remoteAttendance ++ [record]
            currentShift := some record
            storedShift := some record }) ∧
      (handleTimeIn user clock true s).2.currentShift.isSome = true := by
  have hg := (guard_passes_iff s).mpr hguard
  refine ⟨{ id := clock.idNow, userId := user.uid, userName := user.name, type := "time-in"
            timestamp := clock.stampNow, location := loc
            accuracy := s.locationAccuracy, date := clock.dateString
            shiftDuration := none }, rfl, rfl, rfl, rfl, rfl, rfl, rfl, ?_, ?_⟩
  · simp [handleTimeIn, hloc, hg, hshift, saveAttendanceRecord, saveShiftToStorage]
  · simp [handleTimeIn, hloc, hg, hshift, saveAttendanceRecord, saveShiftToStorage]

end MachineClaims
section RealFacts

theorem getDistanceBetweenPoints_self_real (A : Coord ℝ) :
    getDistanceBetweenPoints realMath A A = 0 := by
  have h1 : (⟨1, 0⟩ : ℂ) = 1 := rfl
  simp [getDistanceBetweenPoints, realMath, h1]

end RealFacts

section MachineClaims2
variable {K : Type} [LinearOrderedField K]

/-- C6 (code evaluated at the failing input): the first position, at the
centre of the Manila circle, is processed while the geofence list seen by the
callback is still empty, and the circle is loaded afterwards.  The location is
inside the only geofence of the current collection, yet handleTimeIn rejects
the click as outside the work area and changes nothing. -/
theorem timeIn_at_centre_rejected_after_late_load :
    (lateLoadState realMath).currentLocation = some (manilaCentre ℝ) ∧
    (lateLoadState realMath).geofences = [manilaCircle ℝ] ∧
    isLocationInsideGeofence realMath (manilaCentre ℝ) (manilaCircle ℝ) = some true ∧
    handleTimeIn sampleUser (clockAt sampleT0 "Fri Nov 06 2026") true (lateLoadState realMath)
      = (Outcome.outsideWorkArea, lateLoadState realMath) ∧
    handleTimeOut sampleUser (clockAt sampleT0 "Fri Nov 06 2026") true (lateLoadState realMath)
      = (Outcome.outsideWorkArea, lateLoadState realMath) := by
  have hs : lateLoadState realMath =
      { (initialState none none [] : DashState ℝ) with
        currentLocation := some (manilaCentre ℝ)
        locationAccuracy := some 10
        geofences := [manilaCircle ℝ] } := by
    simp [lateLoadState, run, step, onPosition, checkGeofenceStatus, initialState]
  refine ⟨by rw [hs], by rw [hs], ?_, ?_, ?_⟩
  · simp [isLocationInsideGeofence, manilaCircle, isPointInCircle,
      getDistanceBetweenPoints_self_real]
  · rw [hs]
    simp [handleTimeIn, initialState]
  · rw [hs]
    simp [handleTimeOut, initialState]

end MachineClaims2
section MachineClaims3
variable {K : Type}

/-- Witness for C7: Time In at T0 from the ready state (location at the Manila
centre, no geofence, nobody clocked in). -/
theorem handleTimeIn_success_appends_witness :
    ∃ record : AttendanceRecord ℚ,
      record.type = "time-in" ∧ record.location = manilaCentre ℚ ∧
      (handleTimeIn sampleUser (clockAt sampleT0 "Fri Nov 06 2026") true (readyState ℚ)).1
        = Outcome.success ∧
      (handleTimeIn sampleUser (clockAt sampleT0 "Fri Nov 06 2026") true
        (readyState ℚ)).2.attendanceRecords = [record] := by
  obtain ⟨record, h1, h2, _, _, _, _, _, h8, _⟩ :=
    handleTimeIn_success_appends sampleUser (clockAt sampleT0 "Fri Nov 06 2026") (readyState ℚ)
      (manilaCentre ℚ) rfl rfl (Or.inr rfl)
  refine ⟨record, h1, h2, by rw [h8], ?_⟩
  rw [h8]
  rfl

/-- C8: after a successful Time In, and after any sequence of events that
contains no Time Out, a Time In attempted with a location available and the
geofence guard passing reports already clocked in and returns the state
unchanged: no record is appended remotely or locally, and the active shift and
the persisted shift marker stay as they were. -/
theorem second_timeIn_is_rejected_unchanged [LinearOrderedField K] (M : MathOps K) (user : User)
    (clock1 clock2 : ClockReads) (addDocOk2 : Bool) (s : DashState K) (es : List (Event K))
    (hfirst : (handleTimeIn user clock1 true s).1 = Outcome.success)
    (hes : ∀ e ∈ es, e.isTimeOut = false)
    (hloc : (run M user (handleTimeIn user clock1 true s).2 es).currentLocation.isSome = true)
    (hguard : (run M user (handleTimeIn user clock1 true s).2 es).isInsideGeofence = true ∨
      (run M user (handleTimeIn user clock1 true s).2 es).geofences = []) :
    handleTimeIn user clock2 addDocOk2 (run M user (handleTimeIn user clock1 true s).2 es)
      = (Outcome.alreadyClockedIn, run M user (handleTimeIn user clock1 true s).2 es) := by
  have hin : (handleTimeIn user clock1 true s).2.currentShift.isSome = true := by
    revert hfirst
    unfold handleTimeIn
    cases hl : s.currentLocation with
    | none => simp
    | some loc =>
      by_cases hg : ((!s.isInsideGeofence) && decide (s.geofences.length > 0)) = true
      · simp [hg]
      · by_cases hsh : s.currentShift.isSome = true
        · simp [hg, hsh]
        · simp [hg, hsh, saveShiftToStorage, saveAttendanceRecord]
  have hkeep := run_keeps_currentShift M user es _ hes hin
  generalize run M user (handleTimeIn user clock1 true s).2 es = s2 at hloc hguard hkeep ⊢
  have hg := (guard_passes_iff s2).mpr hguard
  obtain ⟨loc, hl⟩ := Option.isSome_iff_exists.mp hloc
  simp [handleTimeIn, hl, hg, hkeep]

/-- Witness for C8: Time In at T0 from the ready state, then a new position,
then a second Time In one minute later. -/
theorem second_timeIn_is_rejected_unchanged_witness :
    handleTimeIn sampleUser (clockAt (sampleT0 + 60000) "Fri Nov 06 2026") true
        (run realMath sampleUser
          (handleTimeIn sampleUser (clockAt sampleT0 "Fri Nov 06 2026") true (readyState ℝ)).2
          [Event.position [] (manilaCentre ℝ) 5])
      = (Outcome.alreadyClockedIn,
          run realMath sampleUser
            (handleTimeIn sampleUser (clockAt sampleT0 "Fri Nov 06 2026") true (readyState ℝ)).2
            [Event.position [] (manilaCentre ℝ) 5]) :=
  second_timeIn_is_rejected_unchanged realMath sampleUser (clockAt sampleT0 "Fri Nov 06 2026")
    (clockAt (sampleT0 + 60000) "Fri Nov 06 2026") true (readyState ℝ)
    [Event.position [] (manilaCentre ℝ) 5]
    (by simp [handleTimeIn, readyState, initialState])
    (by simp [Event.isTimeOut])
    (by simp [run, step, onPosition, checkGeofenceStatus])
    (Or.inr (by
      simp [run, step, onPosition, checkGeofenceStatus, handleTimeIn, readyState, initialState,
        saveShiftToStorage, saveAttendanceRecord]))

/-- C9: from a state with an active shift, a current location and a passing
geofence guard, a handleTimeOut whose addDoc resolves reports success, appends
exactly one time-out record carrying a shiftDuration at the end of the
in-memory history and of the remote collection, persists the new history,
clears the active shift, removes the persisted shift marker, and changes
nothing else. -/
theorem handleTimeOut_success_appends (user : User) (clock : ClockReads) (s : DashState K)
    (loc : Coord K) (shift : AttendanceRecord K) (hshift : s.currentShift = some shift)
    (hloc : s.currentLocation = some loc)
    (hguard : s.isInsideGeofence = true ∨ s.geofences = []) :
    ∃ record : AttendanceRecord K,
      record.type = "time-out" ∧ record.shiftDuration.isSome = true ∧
      record.location = loc ∧ record.accuracy = s.locationAccuracy ∧
      record.date = clock.dateString ∧ record.timestamp = clock.stampNow ∧
      record.userId = user.uid ∧
      handleTimeOut user clock true s =
        (Outcome.success,
          { s with
            attendanceRecords := s.attendanceRecords ++ [record]
            storedAttendance := some (s.attendanceRecords ++ [record])
            remoteAttendance := s.remoteAttendance ++ [record]
            currentShift := none
            storedShift := none }) ∧
      (handleTimeOut user clock true s).2.currentShift = none ∧
      (handleTimeOut user clock true s).2.storedShift = none := by
  have hg := (guard_passes_iff s).mpr hguard
  refine ⟨{ id := clock.idNow, userId := user.uid, userName := user.name, type := "time-out"
            timestamp := clock.stampNow, location := loc
            accuracy := s.locationAccuracy, date := clock.dateString
            shiftDuration := some (clock.durationNow - shift.timestamp) },
          rfl, rfl, rfl, rfl, rfl, rfl, rfl, ?_, ?_, ?_⟩
  · simp [handleTimeOut, hloc, hg, hshift, saveAttendanceRecord]
  · simp [handleTimeOut, hloc, hg, hshift, saveAttendanceRecord]
  · simp [handleTimeOut, hloc, hg, hshift, saveAttendanceRecord]

/-- Witness for C9: Time Out 90 minutes after the Time In at T0. -/
theorem handleTimeOut_success_appends_witness :
    ∃ rout : AttendanceRecord ℚ,
      rout.type = "time-out" ∧
      (handleTimeOut sampleUser (clockAt (sampleT0 + 5400000) "Fri Nov 06 2026") true
        (clockedInState ℚ)).1 = Outcome.success ∧
      (handleTimeOut sampleUser (clockAt (sampleT0 + 5400000) "Fri Nov 06 2026") true
        (clockedInState ℚ)).2.attendanceRecords = [sampleShift ℚ, rout] ∧
      (handleTimeOut sampleUser (clockAt (sampleT0 + 5400000) "Fri Nov 06 2026") true
        (clockedInState ℚ)).2.currentShift = none := by
  obtain ⟨rout, h1, _, _, _, _, _, _, h8, h9, _⟩ :=
    handleTimeOut_success_appends sampleUser (clockAt (sampleT0 + 5400000) "Fri Nov 06 2026")
      (clockedInState ℚ) (manilaCentre ℚ) (sampleShift ℚ) rfl rfl (Or.inr rfl)
  refine ⟨rout, h1, by rw [h8], ?_, h9⟩
  rw [h8]
  rfl

end MachineClaims3
section MachineClaims4
variable {K : Type}

/-- C10 (as stated, refuted): Time In at T0, then a Time Out whose timestamp
is read at T0 + 5,400,000 ms and whose shift duration is read one clock tick
later.  The time-out record has timestamp T0 + 5,400,000 and shiftDuration
5,400,001, which is not its timestamp minus the timestamp of the time-in
record. -/
theorem shiftDuration_differs_from_timestamp_difference :
    ∃ rout : AttendanceRecord ℚ,
      handleTimeOut sampleUser tickingClock true (clockedInState ℚ) =
        (Outcome.success,
          { clockedInState ℚ with
            attendanceRecords := [sampleShift ℚ, rout]
            storedAttendance := some [sampleShift ℚ, rout]
            remoteAttendance := [sampleShift ℚ, rout]
            currentShift := none
            storedShift := none }) ∧
      (clockedInState ℚ).currentShift = some (sampleShift ℚ) ∧
      rout.timestamp - (sampleShift ℚ).timestamp = 5400000 ∧
      rout.shiftDuration = some 5400001 ∧
      rout.shiftDuration ≠ some (rout.timestamp - (sampleShift ℚ).timestamp) := by
  refine ⟨{ id := sampleT0 + 5400000, userId := "u1", userName := "Ana", type := "time-out"
            timestamp := sampleT0 + 5400000, location := manilaCentre ℚ
            accuracy := some 10, date := "Fri Nov 06 2026"
            shiftDuration := some (sampleT0 + 5400001 - sampleT0) }, rfl, rfl, ?_, ?_, ?_⟩
  · simp [sampleShift]
  · simp
  · simp [sampleShift]

/-- C10 (amended): for every successful Time Out, the shiftDuration of the
time-out record equals the clock reading taken for that field minus the
timestamp of the active shift; it equals the own timestamp of the record minus
the timestamp of the active shift exactly when the reading for the duration
and the reading for the timestamp are the same millisecond. -/
theorem handleTimeOut_shiftDuration (user : User) (clock : ClockReads) (s : DashState K)
    (loc : Coord K) (shift : AttendanceRecord K) (hshift : s.currentShift = some shift)
    (hloc : s.currentLocation = some loc)
    (hguard : s.isInsideGeofence = true ∨ s.geofences = []) :
    ∃ record : AttendanceRecord K,
      (handleTimeOut user clock true s).1 = Outcome.success ∧
      (handleTimeOut user clock true s).2.attendanceRecords = s.attendanceRecords ++ [record] ∧
      record.type = "time-out" ∧
      record.timestamp = clock.stampNow ∧
      record.shiftDuration = some (clock.durationNow - shift.timestamp) ∧
      (record.shiftDuration = some (record.timestamp - shift.timestamp) ↔
        clock.durationNow = clock.stampNow) := by
  have hg := (guard_passes_iff s).mpr hguard
  refine ⟨{ id := clock.idNow, userId := user.uid, userName := user.name, type := "time-out"
            timestamp := clock.stampNow, location := loc
            accuracy := s.locationAccuracy, date := clock.dateString
            shiftDuration := some (clock.durationNow - shift.timestamp) },
          ?_, ?_, rfl, rfl, rfl, ?_⟩
  · simp [handleTimeOut, hloc, hg, hshift]
  · simp [handleTimeOut, hloc, hg, hshift, saveAttendanceRecord]
  · simp

/-- Witness for C10: Time In at T0 followed by a Time Out whose clock readings
all fall at T0 + 90 minutes yields shiftDuration 5,400,000. -/
theorem handleTimeOut_shiftDuration_witness :
    ∃ record : AttendanceRecord ℚ,
      (handleTimeOut sampleUser (clockAt (sampleT0 + 5400000) "Fri Nov 06 2026") true
        (clockedInState ℚ)).2.attendanceRecords = [sampleShift ℚ, record] ∧
      record.shiftDuration = some 5400000 := by
  obtain ⟨record, _, h2, _, _, h5, _⟩ :=
    handleTimeOut_shiftDuration sampleUser (clockAt (sampleT0 + 5400000) "Fri Nov 06 2026")
      (clockedInState ℚ) (manilaCentre ℚ) (sampleShift ℚ) rfl rfl (Or.inr rfl)
  refine ⟨record, ?_, ?_⟩
  · rw [h2]
    rfl
  · rw [h5]
    simp [clockAt, sampleShift]

end MachineClaims4

section FailureClaims
variable {K : Type}

/-- C11: when every guard has passed and addDoc rejects, handleTimeIn and
handleTimeOut report the storage error and return the state they were given:
the in-memory history, the persisted history, the active shift, the persisted
shift marker (and the remote collection) are unchanged, and the same click
repeated with addDoc resolving succeeds. -/
theorem failed_append_leaves_state (user : User) (clock clock2 : ClockReads) (s : DashState K)
    (loc : Coord K) (hloc : s.currentLocation = some loc)
    (hguard : s.isInsideGeofence = true ∨ s.geofences = []) :
    (s.currentShift = none →
      handleTimeIn user clock false s = (Outcome.storageError, s) ∧
      (handleTimeIn user clock2 true (handleTimeIn user clock false s).2).1 = Outcome.success) ∧
    (∀ shift, s.currentShift = some shift →
      handleTimeOut user clock false s = (Outcome.storageError, s) ∧
      (handleTimeOut user clock2 true (handleTimeOut user clock false s).2).1
        = Outcome.success) := by
  have hg := (guard_passes_iff s).mpr hguard
  constructor
  · intro hshift
    have h1 : handleTimeIn user clock false s = (Outcome.storageError, s) := by
      simp [handleTimeIn, hloc, hg, hshift]
    refine ⟨h1, ?_⟩
    rw [h1]
    simp [handleTimeIn, hloc, hg, hshift]
  · intro shift hshift
    have h1 : handleTimeOut user clock false s = (Outcome.storageError, s) := by
      simp [handleTimeOut, hloc, hg, hshift]
    refine ⟨h1, ?_⟩
    rw [h1]
    simp [handleTimeOut, hloc, hg, hshift]

/-- Witness for C11: a failed Time In from the ready state and a failed Time
Out from the clocked-in state both return the state unchanged. -/
theorem failed_append_leaves_state_witness :
    handleTimeIn sampleUser (clockAt sampleT0 "Fri Nov 06 2026") false (readyState ℚ)
      = (Outcome.storageError, readyState ℚ) ∧
    handleTimeOut sampleUser (clockAt (sampleT0 + 5400000) "Fri Nov 06 2026") false
        (clockedInState ℚ)
      = (Outcome.storageError, clockedInState ℚ) :=
  ⟨((failed_append_leaves_state sampleUser (clockAt sampleT0 "Fri Nov 06 2026")
      (clockAt sampleT0 "Fri Nov 06 2026") (readyState ℚ) (manilaCentre ℚ) rfl
      (Or.inr rfl)).1 rfl).1,
   ((failed_append_leaves_state sampleUser (clockAt (sampleT0 + 5400000) "Fri Nov 06 2026")
      (clockAt (sampleT0 + 5400000) "Fri Nov 06 2026") (clockedInState ℚ) (manilaCentre ℚ) rfl
      (Or.inr rfl)).2 (sampleShift ℚ) rfl).1⟩

/-- C12 (as stated, refuted): a Time Out with no active shift is not always
reported as not clocked in.  In the freshly mounted state (no location yet, no
active shift) handleTimeOut reports that the location is unavailable. -/
theorem timeOut_without_shift_reports_location :
    (initialState none none [] : DashState ℚ).currentShift = none ∧
    handleTimeOut sampleUser (clockAt sampleT0 "Fri Nov 06 2026") true
        (initialState none none [] : DashState ℚ)
      = (Outcome.locationUnavailable, initialState none none []) ∧
    (handleTimeOut sampleUser (clockAt sampleT0 "Fri Nov 06 2026") true
        (initialState none none [] : DashState ℚ)).1 ≠ Outcome.notClockedIn := by
  refine ⟨rfl, rfl, ?_⟩
  simp [handleTimeOut, initialState]

/-- C12 (amended): every guard rejection of handleTimeIn or handleTimeOut
returns the state it was given (no durable append; history, active shift and
shift marker unchanged).  The guards are evaluated in the order location,
geofence, shift.  A Time Out with no active shift never succeeds and leaves
the state unchanged; it is reported as not clocked in when a location is
available and the geofence guard passes. -/
theorem guard_rejections_leave_state (user : User) (clock : ClockReads) (addDocOk : Bool)
    (s : DashState K) :
    (s.currentLocation = none →
      handleTimeIn user clock addDocOk s = (Outcome.locationUnavailable, s) ∧
      handleTimeOut user clock addDocOk s = (Outcome.locationUnavailable, s)) ∧
    (s.currentLocation ≠ none → s.isInsideGeofence = false → s.geofences ≠ [] →
      handleTimeIn user clock addDocOk s = (Outcome.outsideWorkArea, s) ∧
      handleTimeOut user clock addDocOk s = (Outcome.outsideWorkArea, s)) ∧
    (s.currentLocation ≠ none → (s.isInsideGeofence = true ∨ s.geofences = []) →
      s.currentShift ≠ none →
      handleTimeIn user clock addDocOk s = (Outcome.alreadyClockedIn, s)) ∧
    (s.currentLocation ≠ none → (s.isInsideGeofence = true ∨ s.geofences = []) →
      s.currentShift = none →
      handleTimeOut user clock addDocOk s = (Outcome.notClockedIn, s)) ∧
    (s.currentShift = none →
      (handleTimeOut user clock addDocOk s).1 ≠ Outcome.success ∧
      (handleTimeOut user clock addDocOk s).2 = s) ∧
    ((handleTimeIn user clock addDocOk s).1 ≠ Outcome.success →
      (handleTimeIn user clock addDocOk s).2 = s) ∧
    ((handleTimeOut user clock addDocOk s).1 ≠ Outcome.success →
      (handleTimeOut user clock addDocOk s).2 = s) := by
  have hgp := guard_passes_iff s
  cases hl : s.currentLocation with
  | none => simp [handleTimeIn, handleTimeOut, hl]
  | some loc =>
    by_cases hg : ((!s.isInsideGeofence) && decide (s.geofences.length > 0)) = true
    · have hng : ¬ (s.isInsideGeofence = true ∨ s.geofences = []) := by
        intro h
        rw [← hgp] at h
        rw [h] at hg
        exact Bool.false_ne_true hg
      simp [handleTimeIn, handleTimeOut, hl, hg, hng]
    · have hg2 : ((!s.isInsideGeofence) && decide (s.geofences.length > 0)) = false := by
        simpa using hg
      have hpass := hgp.mp hg2
      have hno : ¬ (s.isInsideGeofence = false ∧ s.geofences ≠ []) := by
        rintro ⟨h1, h2⟩
        rcases hpass with h | h
        · rw [h1] at h
          exact Bool.false_ne_true h
        · exact h2 h
      cases hs : s.currentShift with
      | none =>
        cases addDocOk <;>
        simp [handleTimeIn, handleTimeOut, hl, hg2, hs, hpass] <;> tauto
      | some shift =>
        cases addDocOk <;>
        simp [handleTimeIn, handleTimeOut, hl, hg2, hs, hpass] <;> tauto

/-- Witness for C12 (amended): a Time Out from the ready state (location
available, no geofence, no active shift) is reported as not clocked in. -/
theorem guard_rejections_leave_state_witness :
    handleTimeOut sampleUser (clockAt sampleT0 "Fri Nov 06 2026") true (readyState ℚ)
      = (Outcome.notClockedIn, readyState ℚ) :=
  (guard_rejections_leave_state sampleUser (clockAt sampleT0 "Fri Nov 06 2026") true
    (readyState ℚ)).2.2.2.1 (by simp [readyState]) (Or.inr rfl) rfl

end FailureClaims
section ReloadClaims
variable {K : Type}

/-- C13: on session start (the state of a freshly mounted component, whose
active shift is absent), loadShiftFromStorage resumes the stored shift as the
active shift and keeps the marker when the date of the marker equals the
date string of today; otherwise it leaves the active shift absent and removes
the marker; with no marker the state is unchanged and the active shift
absent. -/
theorem loadShiftFromStorage_on_start (today : String)
    (storedAttendance : Option (List (AttendanceRecord K)))
    (remoteAttendance : List (AttendanceRecord K)) :
    (∀ shift : AttendanceRecord K, shift.date = today →
      loadShiftFromStorage today (initialState (some shift) storedAttendance remoteAttendance)
        = { initialState (some shift) storedAttendance remoteAttendance with
            currentShift := some shift } ∧
      (loadShiftFromStorage today
        (initialState (some shift) storedAttendance remoteAttendance)).storedShift
        = some shift) ∧
    (∀ shift : AttendanceRecord K, shift.date ≠ today →
      loadShiftFromStorage today (initialState (some shift) storedAttendance remoteAttendance)
        = initialState none storedAttendance remoteAttendance ∧
      (loadShiftFromStorage today
        (initialState (some shift) storedAttendance remoteAttendance)).currentShift = none ∧
      (loadShiftFromStorage today
        (initialState (some shift) storedAttendance remoteAttendance)).storedShift = none) ∧
    (loadShiftFromStorage today (initialState none storedAttendance remoteAttendance)
        = initialState none storedAttendance remoteAttendance ∧
      (loadShiftFromStorage today
        (initialState none storedAttendance remoteAttendance)).currentShift = none) := by
  refine ⟨?_, ?_, ?_⟩
  · intro shift h
    simp [loadShiftFromStorage, initialState, h]
  · intro shift h
    simp [loadShiftFromStorage, initialState, h]
  · simp [loadShiftFromStorage, initialState]

/-- Witness for C13: a marker dated today is resumed, a marker dated yesterday
is discarded. -/
theorem loadShiftFromStorage_on_start_witness :
    (loadShiftFromStorage "Fri Nov 06 2026"
        (initialState (some (sampleShift ℚ)) none [])).currentShift = some (sampleShift ℚ) ∧
    (loadShiftFromStorage "Fri Nov 06 2026"
        (initialState (some (sampleShift ℚ)) none [])).storedShift = some (sampleShift ℚ) ∧
    loadShiftFromStorage "Fri Nov 06 2026" (initialState (some (yesterdayShift ℚ)) none [])
      = initialState none none [] := by
  have h := loadShiftFromStorage_on_start (K := ℚ) "Fri Nov 06 2026" none []
  refine ⟨?_, (h.1 (sampleShift ℚ) rfl).2, (h.2.1 (yesterdayShift ℚ) (by decide)).1⟩
  rw [(h.1 (sampleShift ℚ) rfl).1]

end ReloadClaims

section HaversineClaims

/-- C14: getDistanceBetweenPoints equals the haversine formula of the
specification, 2 R atan2(√a, √(1 − a)) with R = 6 371 000 and
a = sin²(dφ/2) + cos φ1 cos φ2 sin²(dλ/2), for every interpretation of the Math
functions and in particular for the real sine, cosine, square root and
two-argument arctangent. -/
theorem getDistanceBetweenPoints_eq_haversineSpec :
    (∀ (K : Type) [LinearOrderedField K] (M : MathOps K) (p1 p2 : Coord K),
      getDistanceBetweenPoints M p1 p2 = haversineSpec M p1 p2) ∧
    (∀ p1 p2 : Coord ℝ,
      getDistanceBetweenPoints realMath p1 p2 =
        2 * 6371000 *
          Complex.arg
            ⟨Real.sqrt (1 - (Real.sin ((p2.lat - p1.lat) * (Real.pi / 180) / 2) ^ 2 +
                Real.cos (p1.lat * (Real.pi / 180)) * Real.cos (p2.lat * (Real.pi / 180)) *
                  Real.sin ((p2.lng - p1.lng) * (Real.pi / 180) / 2) ^ 2)),
             Real.sqrt (Real.sin ((p2.lat - p1.lat) * (Real.pi / 180) / 2) ^ 2 +
                Real.cos (p1.lat * (Real.pi / 180)) * Real.cos (p2.lat * (Real.pi / 180)) *
                  Real.sin ((p2.lng - p1.lng) * (Real.pi / 180) / 2) ^ 2)⟩) := by
  have key : ∀ (K : Type) [LinearOrderedField K] (M : MathOps K) (p1 p2 : Coord K),
      getDistanceBetweenPoints M p1 p2 = haversineSpec M p1 p2 := by
    intro K _ M p1 p2
    simp only [getDistanceBetweenPoints, haversineSpec, mul_div_assoc, pow_two]
    ring_nf
  refine ⟨key, ?_⟩
  intro p1 p2
  rw [key]
  rfl

/-- C15: over the reals getDistanceBetweenPoints is symmetric. -/
theorem getDistanceBetweenPoints_symm (A B : Coord ℝ) :
    getDistanceBetweenPoints realMath A B = getDistanceBetweenPoints realMath B A := by
  have h1 : (B.lat - A.lat) * Real.pi / 180 / 2 = -((A.lat - B.lat) * Real.pi / 180 / 2) := by
    ring
  have h2 : (B.lng - A.lng) * Real.pi / 180 / 2 = -((A.lng - B.lng) * Real.pi / 180 / 2) := by
    ring
  have ha :
      Real.sin ((B.lat - A.lat) * Real.pi / 180 / 2) *
          Real.sin ((B.lat - A.lat) * Real.pi / 180 / 2) +
        Real.cos (A.lat * Real.pi / 180) * Real.cos (B.lat * Real.pi / 180) *
          Real.sin ((B.lng - A.lng) * Real.pi / 180 / 2) *
          Real.sin ((B.lng - A.lng) * Real.pi / 180 / 2)
      = Real.sin ((A.lat - B.lat) * Real.pi / 180 / 2) *
          Real.sin ((A.lat - B.lat) * Real.pi / 180 / 2) +
        Real.cos (B.lat * Real.pi / 180) * Real.cos (A.lat * Real.pi / 180) *
          Real.sin ((A.lng - B.lng) * Real.pi / 180 / 2) *
          Real.sin ((A.lng - B.lng) * Real.pi / 180 / 2) := by
    rw [h1, h2, Real.sin_neg, Real.sin_neg]
    ring
  simp only [getDistanceBetweenPoints, realMath]
  rw [ha]

/-- C16: over the reals the distance from a coordinate to itself is 0, and
therefore the centre of a circle is inside it for every radius r > 0. -/
theorem centre_is_inside_circle (A : Coord ℝ) :
    getDistanceBetweenPoints realMath A A = 0 ∧
    ∀ r : ℝ, 0 < r → isPointInCircle realMath A A r = true := by
  refine ⟨getDistanceBetweenPoints_self_real A, ?_⟩
  intro r hr
  simp only [isPointInCircle, getDistanceBetweenPoints_self_real, decide_eq_true_eq]
  exact le_of_lt hr

/-- Witness for C16: the Manila centre is inside the circle of radius 50 m
around it. -/
theorem centre_is_inside_circle_witness :
    isPointInCircle realMath (manilaCentre ℝ) (manilaCentre ℝ) 50 = true :=
  (centre_is_inside_circle (manilaCentre ℝ)).2 50 (by norm_num)

end HaversineClaims

section RectangleFacts
variable {K : Type} [LinearOrderedField K]

theorem min4_eq_min2 (a b c d : K) (hb : min a c ≤ b) (hd : min a c ≤ d) :
    min (min a b) (min c d) = min a c :=
  le_antisymm
    (le_min ((min_le_left _ _).trans (min_le_left _ _))
      ((min_le_right _ _).trans (min_le_left _ _)))
    (le_min (le_min (min_le_left _ _) hb) (le_min (min_le_right _ _) hd))

theorem max4_eq_max2 (a b c d : K) (hb : b ≤ max a c) (hd : d ≤ max a c) :
    max (max a b) (max c d) = max a c :=
  le_antisymm
    (max_le (max_le (le_max_left _ _) hb) (max_le (le_max_right _ _) hd))
    (max_le ((le_max_left _ _).trans (le_max_left _ _))
      ((le_max_left _ _).trans (le_max_right _ _)))

theorem rectangle_eval (M : MathOps K) (location : Coord K) (g : Geofence K)
    (c0 c1 c2 c3 : Coord K) (hty : g.type = "rectangle")
    (hco : g.coordinates = some [c0, c1, c2, c3]) :
    isLocationInsideGeofence M location g = some true ↔ inBox2 c0 c2 location := by
  simp [isLocationInsideGeofence, hty, hco, inBox2, and_assoc]

end RectangleFacts

section RectangleClaims
variable {K : Type} [LinearOrderedField K]

/-- C18 (as stated, refuted): for the rotated rectangle with corners (0,5),
(5,10), (10,5), (5,0) the location (5,2) lies in the bounding box of the four
corners, and isLocationInsideGeofence answers false. -/
theorem rotated_rectangle_not_bounding_box :
    inBoundingBox4 (⟨0, 5⟩ : Coord ℝ) ⟨5, 10⟩ ⟨10, 5⟩ ⟨5, 0⟩ ⟨5, 2⟩ ∧
    isLocationInsideGeofence realMath ⟨5, 2⟩ (diamondGeofence ℝ) = some false := by
  constructor
  · simp only [inBoundingBox4]
    norm_num
  · simp [isLocationInsideGeofence, diamondGeofence]
    norm_num

/-- C18 (amended): for a rectangle geofence with four corners,
isLocationInsideGeofence is true exactly on the axis-aligned box spanned by
corners 0 and 2; that box is the bounding box over all four corners exactly
when corners 1 and 3 lie within it. -/
theorem rectangle_is_bounding_box_iff (M : MathOps K) (g : Geofence K) (c0 c1 c2 c3 : Coord K)
    (hty : g.type = "rectangle") (hco : g.coordinates = some [c0, c1, c2, c3]) :
    (∀ location, isLocationInsideGeofence M location g = some true ↔ inBox2 c0 c2 location) ∧
    ((∀ location, isLocationInsideGeofence M location g = some true ↔
        inBoundingBox4 c0 c1 c2 c3 location) ↔
      (inBox2 c0 c2 c1 ∧ inBox2 c0 c2 c3)) := by
  have hev := fun location => rectangle_eval M location g c0 c1 c2 c3 hty hco
  refine ⟨hev, ?_⟩
  constructor
  · intro h
    constructor
    · rw [← hev, h]
      exact ⟨⟨(min_le_left _ _).trans (min_le_right _ _),
              (le_max_right _ _).trans (le_max_left _ _)⟩,
             ⟨(min_le_left _ _).trans (min_le_right _ _),
              (le_max_right _ _).trans (le_max_left _ _)⟩⟩
    · rw [← hev, h]
      exact ⟨⟨(min_le_right _ _).trans (min_le_right _ _),
              (le_max_right _ _).trans (le_max_right _ _)⟩,
             ⟨(min_le_right _ _).trans (min_le_right _ _),
              (le_max_right _ _).trans (le_max_right _ _)⟩⟩
  · rintro ⟨⟨⟨h1a, h1b⟩, ⟨h1c, h1d⟩⟩, ⟨⟨h3a, h3b⟩, ⟨h3c, h3d⟩⟩⟩ location
    rw [hev]
    unfold inBox2 inBoundingBox4
    rw [min4_eq_min2 _ _ _ _ h1a h3a, max4_eq_max2 _ _ _ _ h1b h3b,
      min4_eq_min2 _ _ _ _ h1c h3c, max4_eq_max2 _ _ _ _ h1d h3d]

/-- Witness for C18 (amended): the box 10..20 by 100..110 stored in the order
NW, NE, SE, SW is tested as the bounding box of its four corners, here at the
location (15, 105). -/
theorem rectangle_is_bounding_box_iff_witness :
    isLocationInsideGeofence realMath ⟨15, 105⟩ (boxGeofence ℝ) = some true ↔
      inBoundingBox4 (⟨20, 100⟩ : Coord ℝ) ⟨20, 110⟩ ⟨10, 110⟩ ⟨10, 100⟩ ⟨15, 105⟩ :=
  (rectangle_is_bounding_box_iff realMath (boxGeofence ℝ) ⟨20, 100⟩ ⟨20, 110⟩ ⟨10, 110⟩
    ⟨10, 100⟩ rfl rfl).2.mpr (by simp only [inBox2]; norm_num) ⟨15, 105⟩

end RectangleClaims

section PolygonRectFacts
variable {K : Type} [LinearOrderedField K]

theorem edgeCondition_horizontal (p : Coord K) (lat l1 l2 : K) :
    edgeCondition p ⟨lat, l1⟩ ⟨lat, l2⟩ = false := by
  simp [edgeCondition]

theorem edgeCondition_vertical (p : Coord K) (a b l : K) (hab : a < b) :
    edgeCondition p ⟨a, l⟩ ⟨b, l⟩ = decide (a ≤ p.lat ∧ p.lat < b ∧ p.lng < l) ∧
    edgeCondition p ⟨b, l⟩ ⟨a, l⟩ = decide (a ≤ p.lat ∧ p.lat < b ∧ p.lng < l) := by
  constructor
  · rw [edgeCondition_eq_crossesHalfOpen, crossesHalfOpen, edgeLngAt]
    simp only [sub_self, zero_mul, add_zero, decide_eq_decide]
    constructor
    · rintro ⟨h | h, h2⟩
      · exact ⟨h.1, h.2, h2⟩
      · exact absurd (lt_of_le_of_lt h.1 h.2) (not_lt.mpr (le_of_lt hab))
    · rintro ⟨h1, h2, h3⟩
      exact ⟨Or.inl ⟨h1, h2⟩, h3⟩
  · rw [edgeCondition_eq_crossesHalfOpen, crossesHalfOpen, edgeLngAt]
    simp only [sub_self, zero_mul, add_zero, decide_eq_decide]
    constructor
    · rintro ⟨h | h, h2⟩
      · exact absurd (lt_of_le_of_lt h.1 h.2) (not_lt.mpr (le_of_lt hab))
      · exact ⟨h.1, h.2, h2⟩
    · rintro ⟨h1, h2, h3⟩
      exact ⟨Or.inr ⟨h1, h2⟩, h3⟩

theorem isPointInPolygon_axis_rect (p : Coord K) (a b c d : K) (hab : a < b) (hcd : c < d) :
    isPointInPolygon p [⟨a, c⟩, ⟨a, d⟩, ⟨b, d⟩, ⟨b, c⟩]
      = decide ((a ≤ p.lat ∧ p.lat < b) ∧ (c ≤ p.lng ∧ p.lng < d)) := by
  have e0 := (edgeCondition_vertical p a b c hab).1
  have e1 := edgeCondition_horizontal p a d c
  have e2 := (edgeCondition_vertical p a b d hab).2
  have e3 := edgeCondition_horizontal p b c d
  simp only [isPointInPolygon, List.length_cons, List.length_nil, List.range_succ,
    List.range_zero, List.nil_append, List.cons_append, List.foldl_cons, List.foldl_nil,
    polygonStep, List.getD_cons_zero, List.getD_cons_succ, e0, e1, e2, e3]
  by_cases h1 : a ≤ p.lat ∧ p.lat < b
  · by_cases h2 : p.lng < c
    · have h3 : p.lng < d := lt_trans h2 hcd
      have h4 : ¬ c ≤ p.lng := not_le.mpr h2
      simp [h1, h2, h3, h4]
    · have h4 : c ≤ p.lng := not_lt.mp h2
      by_cases h3 : p.lng < d
      · simp [h1, h2, h3, h4]
      · simp [h1, h2, h3, h4]
  · have h5 : ¬ (a ≤ p.lat ∧ p.lat < b ∧ p.lng < c) := fun h => h1 ⟨h.1, h.2.1⟩
    have h6 : ¬ (a ≤ p.lat ∧ p.lat < b ∧ p.lng < d) := fun h => h1 ⟨h.1, h.2.1⟩
    simp [h1, h5, h6]

end PolygonRectFacts

section PolygonRectClaims
variable {K : Type} [LinearOrderedField K]

/-- C19: for the axis-aligned rectangular polygon [(a,c),(a,d),(b,d),(b,c)]
with a < b and c < d, isPointInPolygon answers inside for every point strictly
inside and outside for every point strictly outside. -/
theorem axis_rect_polygon_classifies (p : Coord K) (a b c d : K) (hab : a < b) (hcd : c < d) :
    ((a < p.lat ∧ p.lat < b ∧ c < p.lng ∧ p.lng < d) →
      isPointInPolygon p [⟨a, c⟩, ⟨a, d⟩, ⟨b, d⟩, ⟨b, c⟩] = true) ∧
    ((p.lat < a ∨ b < p.lat ∨ p.lng < c ∨ d < p.lng) →
      isPointInPolygon p [⟨a, c⟩, ⟨a, d⟩, ⟨b, d⟩, ⟨b, c⟩] = false) := by
  rw [isPointInPolygon_axis_rect p a b c d hab hcd]
  constructor
  · rintro ⟨h1, h2, h3, h4⟩
    exact decide_eq_true ⟨⟨le_of_lt h1, h2⟩, ⟨le_of_lt h3, h4⟩⟩
  · intro h
    apply decide_eq_false
    rintro ⟨⟨h1, h2⟩, ⟨h3, h4⟩⟩
    rcases h with h | h | h | h
    · exact absurd h (not_lt.mpr h1)
    · exact absurd h (not_lt.mpr (le_of_lt h2))
    · exact absurd h (not_lt.mpr h3)
    · exact absurd h (not_lt.mpr (le_of_lt h4))

/-- Witness for C19: for the square [(0,0),(0,10),(10,10),(10,0)] the point
(5,5) is inside and the point (15,15) is outside. -/
theorem axis_rect_polygon_classifies_witness :
    isPointInPolygon (⟨5, 5⟩ : Coord ℚ) (specSquare ℚ) = true ∧
    isPointInPolygon (⟨15, 15⟩ : Coord ℚ) (specSquare ℚ) = false :=
  ⟨(axis_rect_polygon_classifies (⟨5, 5⟩ : Coord ℚ) 0 10 0 10 (by norm_num) (by norm_num)).1
      (by norm_num),
   (axis_rect_polygon_classifies (⟨15, 15⟩ : Coord ℚ) 0 10 0 10 (by norm_num) (by norm_num)).2
      (by norm_num)⟩

end PolygonRectClaims

section ScheduleFacts

theorem cons_lt_cons_units (x y : Nat) (xs ys : List Nat) :
    x :: xs < y :: ys ↔ x < y ∨ (x = y ∧ xs < ys) := by
  constructor
  · intro h
    change List.Lex (· < ·) (x :: xs) (y :: ys) at h
    cases h with
    | cons h => exact Or.inr ⟨rfl, h⟩
    | rel h => exact Or.inl h
  · rintro (h | ⟨rfl, h⟩)
    · exact List.Lex.rel h
    · exact List.Lex.cons h

theorem unitsLe_iff_le (xs ys : List Nat) : unitsLe xs ys = true ↔ xs ≤ ys := by
  induction xs generalizing ys with
  | nil => simp [unitsLe]
  | cons x xs ih =>
    cases ys with
    | nil =>
      simp only [unitsLe, Bool.false_eq_true, false_iff, not_le]
      exact List.nil_lt_cons x xs
    | cons y ys =>
      have hih : ys < xs ↔ ¬ unitsLe xs ys = true := by
        rw [ih ys, not_le]
      rw [← not_lt, cons_lt_cons_units, hih]
      simp only [unitsLe]
      rcases Nat.lt_trichotomy x y with h | h | h
      · have h1 : ¬ y < x := Nat.lt_asymm h
        have h2 : y ≠ x := (Nat.ne_of_lt h).symm
        simp [h, h1, h2]
      · subst h
        simp
      · have h1 : ¬ x < y := Nat.lt_asymm h
        have h2 : x ≠ y := (Nat.ne_of_lt h).symm
        simp [h, h1, h2]

end ScheduleFacts

section ScheduleClaims

/-- C20: getCurrentShiftType answers Morning Shift when the current time lies
in the morning window, both ends included, under lexicographic comparison of
the strings; otherwise Evening Shift when it lies in the evening window, both
ends included; otherwise Outside Shift Hours.  A time that lies in both
windows is a morning time. -/
theorem getCurrentShiftType_spec (t : String) (schedule : ShiftSchedule) :
    ((lexLe schedule.morning.start t ∧ lexLe t schedule.morning.finish) →
      getCurrentShiftType t schedule = "Morning Shift") ∧
    (¬ (lexLe schedule.morning.start t ∧ lexLe t schedule.morning.finish) →
      (lexLe schedule.evening.start t ∧ lexLe t schedule.evening.finish) →
      getCurrentShiftType t schedule = "Evening Shift") ∧
    (¬ (lexLe schedule.morning.start t ∧ lexLe t schedule.morning.finish) →
      ¬ (lexLe schedule.evening.start t ∧ lexLe t schedule.evening.finish) →
      getCurrentShiftType t schedule = "Outside Shift Hours") ∧
    ((lexLe schedule.morning.start t ∧ lexLe t schedule.morning.finish) →
      (lexLe schedule.evening.start t ∧ lexLe t schedule.evening.finish) →
      getCurrentShiftType t schedule = "Morning Shift") ∧
    (lexLe schedule.morning.start schedule.morning.finish →
      getCurrentShiftType schedule.morning.start schedule = "Morning Shift" ∧
      getCurrentShiftType schedule.morning.finish schedule = "Morning Shift") := by
  have hle : ∀ a b : String, jsStringLe a b = true ↔ lexLe a b := fun a b =>
    unitsLe_iff_le (utf16Units a) (utf16Units b)
  have hb : ∀ a b c : String,
      (jsStringLe a b && jsStringLe b c) = true ↔ (lexLe a b ∧ lexLe b c) := by
    intro a b c
    rw [Bool.and_eq_true, hle, hle]
  have hrefl : ∀ a : String, lexLe a a := fun a => le_refl (utf16Units a)
  have hm : ∀ u : String, (lexLe schedule.morning.start u ∧ lexLe u schedule.morning.finish) →
      getCurrentShiftType u schedule = "Morning Shift" := by
    intro u h
    simp [getCurrentShiftType, hle, h.1, h.2]
  refine ⟨hm t, ?_, ?_, fun h _ => hm t h, ?_⟩
  · intro h1 h2
    unfold getCurrentShiftType
    rw [if_neg (mt (hb _ _ _).mp h1), if_pos ((hb _ _ _).mpr h2)]
  · intro h1 h2
    unfold getCurrentShiftType
    rw [if_neg (mt (hb _ _ _).mp h1), if_neg (mt (hb _ _ _).mp h2)]
  · intro h
    exact ⟨hm _ ⟨hrefl _, h⟩, hm _ ⟨h, hrefl _⟩⟩

/-- Witness for C20: with the default schedule 12:00 is a morning time, 17:00
an evening time and 12:30 outside the shift hours; with the overlapping
schedule 11:30 is a morning time. -/
theorem getCurrentShiftType_spec_witness :
    getCurrentShiftType "12:00" defaultSchedule = "Morning Shift" ∧
    getCurrentShiftType "17:00" defaultSchedule = "Evening Shift" ∧
    getCurrentShiftType "12:30" defaultSchedule = "Outside Shift Hours" ∧
    getCurrentShiftType "11:30" overlappingSchedule = "Morning Shift" := by
  have le_of : ∀ a b : String, unitsLe (utf16Units a) (utf16Units b) = true → lexLe a b :=
    fun a b h => (unitsLe_iff_le _ _).mp h
  have nle_of : ∀ a b : String, unitsLe (utf16Units a) (utf16Units b) = false → ¬ lexLe a b :=
    fun a b h h2 => by
      rw [(unitsLe_iff_le _ _).mpr h2] at h
      exact Bool.noConfusion h
  refine ⟨?_, ?_, ?_, ?_⟩
  · exact (getCurrentShiftType_spec "12:00" defaultSchedule).1
      ⟨le_of _ _ (by decide), le_of _ _ (by decide)⟩
  · exact (getCurrentShiftType_spec "17:00" defaultSchedule).2.1
      (fun h => nle_of "17:00" "12:00" (by decide) h.2)
      ⟨le_of _ _ (by decide), le_of _ _ (by decide)⟩
  · exact (getCurrentShiftType_spec "12:30" defaultSchedule).2.2.1
      (fun h => nle_of "12:30" "12:00" (by decide) h.2)
      (fun h => nle_of "13:00" "12:30" (by decide) h.1)
  · exact (getCurrentShiftType_spec "11:30" overlappingSchedule).2.2.2.1
      ⟨le_of _ _ (by decide), le_of _ _ (by decide)⟩
      ⟨le_of _ _ (by decide), le_of _ _ (by decide)⟩

end ScheduleClaims

section TrigFacts

theorem sin_half_degrees_eq_zero_iff (d : ℝ) (h1 : -360 ≤ d) (h2 : d ≤ 360) :
    Real.sin (d * Real.pi / 180 / 2) = 0 ↔ d = 0 ∨ d = 360 ∨ d = -360 := by
  have hpi := Real.pi_pos
  constructor
  · intro h
    by_cases ha : d = 360
    · exact Or.inr (Or.inl ha)
    by_cases hb : d = -360
    · exact Or.inr (Or.inr hb)
    left
    have h3 : d < 360 := lt_of_le_of_ne h2 ha
    have h4 : -360 < d := lt_of_le_of_ne h1 (Ne.symm hb)
    have hx1 : -Real.pi < d * Real.pi / 180 / 2 := by
      have := mul_pos hpi (by linarith : (0 : ℝ) < d + 360)
      linarith
    have hx2 : d * Real.pi / 180 / 2 < Real.pi := by
      have := mul_pos hpi (by linarith : (0 : ℝ) < 360 - d)
      linarith
    have hz := (Real.sin_eq_zero_iff_of_lt_of_lt hx1 hx2).mp h
    have : d * Real.pi = 0 := by linarith
    rcases mul_eq_zero.mp this with h0 | h0
    · exact h0
    · exact absurd h0 (ne_of_gt hpi)
  · rintro (h | h | h)
    · simp [h]
    · have : d * Real.pi / 180 / 2 = Real.pi := by rw [h]; ring
      rw [this, Real.sin_pi]
    · have : d * Real.pi / 180 / 2 = -Real.pi := by rw [h]; ring
      rw [this, Real.sin_neg, Real.sin_pi, neg_zero]

theorem cos_degrees_nonneg (l : ℝ) (h1 : -90 ≤ l) (h2 : l ≤ 90) :
    0 ≤ Real.cos (l * Real.pi / 180) := by
  have hpi := Real.pi_pos
  apply Real.cos_nonneg_of_neg_pi_div_two_le_of_le
  · have := mul_nonneg hpi.le (by linarith : (0 : ℝ) ≤ l + 90)
    linarith
  · have := mul_nonneg hpi.le (by linarith : (0 : ℝ) ≤ 90 - l)
    linarith

theorem cos_degrees_eq_zero_iff (l : ℝ) (h1 : -90 ≤ l) (h2 : l ≤ 90) :
    Real.cos (l * Real.pi / 180) = 0 ↔ l = 90 ∨ l = -90 := by
  have hpi := Real.pi_pos
  constructor
  · intro h
    by_cases ha : l = 90
    · exact Or.inl ha
    by_cases hb : l = -90
    · exact Or.inr hb
    exfalso
    have h3 : l < 90 := lt_of_le_of_ne h2 ha
    have h4 : -90 < l := lt_of_le_of_ne h1 (Ne.symm hb)
    have hpos : 0 < Real.cos (l * Real.pi / 180) := by
      apply Real.cos_pos_of_mem_Ioo
      constructor
      · have := mul_pos hpi (by linarith : (0 : ℝ) < l + 90)
        linarith
      · have := mul_pos hpi (by linarith : (0 : ℝ) < 90 - l)
        linarith
    exact absurd h (ne_of_gt hpos)
  · rintro (h | h)
    · have : l * Real.pi / 180 = Real.pi / 2 := by rw [h]; ring
      rw [this, Real.cos_pi_div_two]
    · have : l * Real.pi / 180 = -(Real.pi / 2) := by rw [h]; ring
      rw [this, Real.cos_neg, Real.cos_pi_div_two]

theorem getDistanceBetweenPoints_real_eq_zero_iff (A B : Coord ℝ) :
    getDistanceBetweenPoints realMath A B = 0 ↔
      Real.sin ((B.lat - A.lat) * Real.pi / 180 / 2) *
          Real.sin ((B.lat - A.lat) * Real.pi / 180 / 2) +
        Real.cos (A.lat * Real.pi / 180) * Real.cos (B.lat * Real.pi / 180) *
          Real.sin ((B.lng - A.lng) * Real.pi / 180 / 2) *
          Real.sin ((B.lng - A.lng) * Real.pi / 180 / 2) ≤ 0 := by
  simp only [getDistanceBetweenPoints, realMath]
  rw [mul_eq_zero, mul_eq_zero, Complex.arg_eq_zero_iff]
  simp only [Real.sqrt_eq_zero']
  constructor
  · rintro (h | h | h)
    · norm_num at h
    · norm_num at h
    · exact h.2
  · intro h
    exact Or.inr (Or.inr ⟨Real.sqrt_nonneg _, h⟩)

end TrigFacts
section ZeroDistanceClaims

/-- C17 (as stated, refuted): the coordinates (90, 0) and (90, 10) lie in the
ranges of the data model and are not identical, and over the reals their
distance is 0 (both denote the north pole); the same holds for (90, 0) and
(90, 1e-150). -/
theorem pole_distance_zero_not_identical :
    (getDistanceBetweenPoints realMath ⟨90, 0⟩ ⟨90, 10⟩ = 0 ∧
      (⟨90, 0⟩ : Coord ℝ) ≠ ⟨90, 10⟩ ∧ (-180 : ℝ) ≤ 10 ∧ (10 : ℝ) ≤ 180) ∧
    (getDistanceBetweenPoints realMath ⟨90, 0⟩ ⟨90, 1e-150⟩ = 0 ∧
      (⟨90, 0⟩ : Coord ℝ) ≠ ⟨90, 1e-150⟩ ∧ (-180 : ℝ) ≤ 1e-150 ∧ (1e-150 : ℝ) ≤ 180) ∧
    ((-90 : ℝ) ≤ 90 ∧ (90 : ℝ) ≤ 90 ∧ (-180 : ℝ) ≤ 0 ∧ (0 : ℝ) ≤ 180) := by
  have hc : Real.cos ((90 : ℝ) * Real.pi / 180) = 0 :=
    (cos_degrees_eq_zero_iff 90 (by norm_num) (by norm_num)).mpr (Or.inl rfl)
  refine ⟨⟨?_, ?_, by norm_num, by norm_num⟩, ⟨?_, ?_, by norm_num, by norm_num⟩, by norm_num⟩
  · rw [getDistanceBetweenPoints_real_eq_zero_iff]
    simp [hc]
  · intro h
    have h2 := congrArg Coord.lng h
    norm_num at h2
  · rw [getDistanceBetweenPoints_real_eq_zero_iff]
    simp [hc]
  · intro h
    have h2 := congrArg Coord.lng h
    norm_num at h2

/-- C17 (amended): over the reals, for coordinates of the data model (lat in
[-90, 90], lng in [-180, 180]) the distance is 0 exactly when the two
coordinates denote the same point of the sphere: the latitudes are equal and
either the longitudes are equal, or the common latitude is a pole (90 or -90),
or the longitudes are the two ends -180 and 180 of the range. -/
theorem distance_zero_iff_same_point (A B : Coord ℝ)
    (hA : -90 ≤ A.lat ∧ A.lat ≤ 90) (hB : -90 ≤ B.lat ∧ B.lat ≤ 90)
    (hAl : -180 ≤ A.lng ∧ A.lng ≤ 180) (hBl : -180 ≤ B.lng ∧ B.lng ≤ 180) :
    getDistanceBetweenPoints realMath A B = 0 ↔
      A.lat = B.lat ∧
        (A.lng = B.lng ∨ A.lat = 90 ∨ A.lat = -90 ∨
          (A.lng = -180 ∧ B.lng = 180) ∨ (A.lng = 180 ∧ B.lng = -180)) := by
  rw [getDistanceBetweenPoints_real_eq_zero_iff]
  have hc1 := cos_degrees_nonneg A.lat hA.1 hA.2
  have hc2 := cos_degrees_nonneg B.lat hB.1 hB.2
  have hs1 := sin_half_degrees_eq_zero_iff (B.lat - A.lat) (by linarith) (by linarith)
  have hs2 := sin_half_degrees_eq_zero_iff (B.lng - A.lng) (by linarith) (by linarith)
  have hcz := cos_degrees_eq_zero_iff A.lat hA.1 hA.2
  generalize hS1 : Real.sin ((B.lat - A.lat) * Real.pi / 180 / 2) = s1 at hs1 ⊢
  generalize hS2 : Real.sin ((B.lng - A.lng) * Real.pi / 180 / 2) = s2 at hs2 ⊢
  constructor
  · intro h
    have h1 : 0 ≤ s1 * s1 := mul_self_nonneg s1
    have h2 : 0 ≤ Real.cos (A.lat * Real.pi / 180) * Real.cos (B.lat * Real.pi / 180) *
        s2 * s2 := by
      rw [mul_assoc]
      exact mul_nonneg (mul_nonneg hc1 hc2) (mul_self_nonneg s2)
    have h3 : s1 * s1 = 0 := by linarith
    have h4 : Real.cos (A.lat * Real.pi / 180) * Real.cos (B.lat * Real.pi / 180) *
        s2 * s2 = 0 := by linarith
    have hlat : A.lat = B.lat := by
      rcases hs1.mp (mul_self_eq_zero.mp h3) with h | h | h <;> linarith [hA.1, hA.2, hB.1, hB.2]
    refine ⟨hlat, ?_⟩
    rw [← hlat] at h4
    rcases mul_eq_zero.mp h4 with h5 | h5
    · rcases mul_eq_zero.mp h5 with h6 | h6
      · rcases mul_eq_zero.mp h6 with h7 | h7
        · rcases hcz.mp h7 with h | h
          · exact Or.inr (Or.inl h)
          · exact Or.inr (Or.inr (Or.inl h))
        · rcases hcz.mp h7 with h | h
          · exact Or.inr (Or.inl h)
          · exact Or.inr (Or.inr (Or.inl h))
      · rcases hs2.mp h6 with h | h | h
        · exact Or.inl (by linarith)
        · exact Or.inr (Or.inr (Or.inr (Or.inl ⟨by linarith [hAl.1, hBl.2], by
            linarith [hAl.1, hBl.2]⟩)))
        · exact Or.inr (Or.inr (Or.inr (Or.inr ⟨by linarith [hAl.2, hBl.1], by
            linarith [hAl.2, hBl.1]⟩)))
    · rcases hs2.mp h5 with h | h | h
      · exact Or.inl (by linarith)
      · exact Or.inr (Or.inr (Or.inr (Or.inl ⟨by linarith [hAl.1, hBl.2], by
          linarith [hAl.1, hBl.2]⟩)))
      · exact Or.inr (Or.inr (Or.inr (Or.inr ⟨by linarith [hAl.2, hBl.1], by
          linarith [hAl.2, hBl.1]⟩)))
  · rintro ⟨hlat, hrest⟩
    have h1 : s1 = 0 := hs1.mpr (Or.inl (by linarith))
    rw [h1, ← hlat]
    rcases hrest with h | h | h | ⟨ha, hb⟩ | ⟨ha, hb⟩
    · have h2 : s2 = 0 := hs2.mpr (Or.inl (by linarith))
      rw [h2]
      simp
    · rw [hcz.mpr (Or.inl h)]
      simp
    · rw [hcz.mpr (Or.inr h)]
      simp
    · have h2 : s2 = 0 := hs2.mpr (Or.inr (Or.inl (by linarith)))
      rw [h2]
      simp
    · have h2 : s2 = 0 := hs2.mpr (Or.inr (Or.inr (by linarith)))
      rw [h2]
      simp

/-- Witness for C17 (amended): the points (0, -180) and (0, 180) on the
antimeridian are at distance 0. -/
theorem distance_zero_iff_same_point_witness :
    getDistanceBetweenPoints realMath ⟨0, -180⟩ ⟨0, 180⟩ = 0 :=
  (distance_zero_iff_same_point ⟨0, -180⟩ ⟨0, 180⟩ (by norm_num) (by norm_num)
    (by norm_num) (by norm_num)).mpr ⟨rfl, Or.inr (Or.inr (Or.inr (Or.inl ⟨rfl, rfl⟩)))⟩

end ZeroDistanceClaims

section ShiftFacts
variable {K : Type}

theorem handleTimeIn_shift_cases (user : User) (clock : ClockReads) (ok : Bool)
    (s : DashState K) :
    (handleTimeIn user clock ok s).2 = s ∨
    ∃ r, (handleTimeIn user clock ok s).2.currentShift = some r ∧
      (handleTimeIn user clock ok s).2.storedShift = some r := by
  unfold handleTimeIn
  cases s.currentLocation with
  | none => exact Or.inl rfl
  | some loc =>
    by_cases hg : ((!s.isInsideGeofence) && decide (s.geofences.length > 0)) = true
    · simp [hg]
    · by_cases hsh : s.currentShift.isSome = true
      · simp [hg, hsh]
      · cases ok
        · simp [hg, hsh]
        · right
          simp [hg, hsh, saveShiftToStorage, saveAttendanceRecord]

theorem handleTimeOut_shift_cases (user : User) (clock : ClockReads) (ok : Bool)
    (s : DashState K) :
    (handleTimeOut user clock ok s).2 = s ∨
    ((handleTimeOut user clock ok s).2.currentShift = none ∧
      (handleTimeOut user clock ok s).2.storedShift = none) := by
  unfold handleTimeOut
  cases s.currentLocation with
  | none => exact Or.inl rfl
  | some loc =>
    by_cases hg : ((!s.isInsideGeofence) && decide (s.geofences.length > 0)) = true
    · simp [hg]
    · cases hsh : s.currentShift with
      | none => simp [hg]
      | some shift =>
        cases ok
        · simp [hg]
        · right
          simp [hg, saveAttendanceRecord]

end ShiftFacts

section LateClaims
variable {K : Type} [LinearOrderedField K]

/-- C25: for the axis-aligned rectangular polygon [(a,c),(a,d),(b,d),(b,c)]
with a < b and c < d, isPointInPolygon is true exactly when a <= lat < b and
c <= lng < d. -/
theorem axis_rect_polygon_half_open (p : Coord K) (a b c d : K) (hab : a < b) (hcd : c < d) :
    isPointInPolygon p [⟨a, c⟩, ⟨a, d⟩, ⟨b, d⟩, ⟨b, c⟩] = true ↔
      (a ≤ p.lat ∧ p.lat < b) ∧ (c ≤ p.lng ∧ p.lng < d) := by
  rw [isPointInPolygon_axis_rect p a b c d hab hcd, decide_eq_true_eq]

/-- Witness for C25: on the square [(0,0),(0,10),(10,10),(10,0)] the edge
point (0,5) is inside and the opposite edge point (10,5) is outside. -/
theorem axis_rect_polygon_half_open_witness :
    isPointInPolygon (⟨0, 5⟩ : Coord ℚ) (specSquare ℚ) = true ∧
    isPointInPolygon (⟨10, 5⟩ : Coord ℚ) (specSquare ℚ) = false := by
  constructor
  · exact (axis_rect_polygon_half_open (⟨0, 5⟩ : Coord ℚ) 0 10 0 10 (by norm_num)
      (by norm_num)).mpr (by norm_num)
  · rw [← Bool.not_eq_true]
    intro h
    have h2 := (axis_rect_polygon_half_open (⟨10, 5⟩ : Coord ℚ) 0 10 0 10 (by norm_num)
      (by norm_num)).mp h
    norm_num at h2

/-- C29: in every state reached from session start (loadShiftFromStorage
applied to the freshly mounted state over arbitrary stored contents) by any
sequence of events, in particular by any sequence of Time In and Time Out
clicks whose addDoc resolves or rejects, the in-memory active shift and the
persisted shift marker are equal: one is present exactly when the other is,
and then they are the same record. -/
theorem currentShift_eq_storedShift (M : MathOps K) (user : User) (today : String)
    (storedShift : Option (AttendanceRecord K))
    (storedAttendance : Option (List (AttendanceRecord K)))
    (remoteAttendance : List (AttendanceRecord K)) (es : List (Event K)) :
    (run M user (loadShiftFromStorage today
        (initialState storedShift storedAttendance remoteAttendance)) es).currentShift
      = (run M user (loadShiftFromStorage today
        (initialState storedShift storedAttendance remoteAttendance)) es).storedShift := by
  have hstart : (loadShiftFromStorage today
        (initialState storedShift storedAttendance remoteAttendance)).currentShift
      = (loadShiftFromStorage today
        (initialState storedShift storedAttendance remoteAttendance)).storedShift := by
    cases storedShift with
    | none => rfl
    | some shift =>
      by_cases h : shift.date = today
      · simp [loadShiftFromStorage, initialState, h]
      · simp [loadShiftFromStorage, initialState, h]
  have hstep : ∀ (s : DashState K) (e : Event K), s.currentShift = s.storedShift →
      (step M user s e).currentShift = (step M user s e).storedShift := by
    intro s e hs
    cases e with
    | position seen location accuracy =>
      simp only [step, onPosition]
      cases checkGeofenceStatus M seen location <;> exact hs
    | geofencesLoaded data => exact hs
    | geofenceSaved g => exact hs
    | shapeEdited geofenceId u => exact hs
    | geofenceDeleted geofenceId => exact hs
    | timeIn clock ok =>
      rcases handleTimeIn_shift_cases user clock ok s with h | ⟨r, h1, h2⟩
      · simp only [step]
        rw [h]
        exact hs
      · simp only [step]
        rw [h1, h2]
    | timeOut clock ok =>
      rcases handleTimeOut_shift_cases user clock ok s with h | ⟨h1, h2⟩
      · simp only [step]
        rw [h]
        exact hs
      · simp only [step]
        rw [h1, h2]
  generalize loadShiftFromStorage today
    (initialState storedShift storedAttendance remoteAttendance) = s0 at hstart ⊢
  induction es generalizing s0 with
  | nil => exact hstart
  | cons e es ih =>
    simp only [run, List.foldl_cons]
    exact ih (step M user s0 e) (hstep s0 e hstart)

/-- C30: for a non-negative whole number of milliseconds, formatDuration is
H followed by h, a blank, M and m, with H = floor(ms / 3 600 000) and
M = floor((ms mod 3 600 000) / 60 000); M is at most 59 and 60 H + M is the
whole number of minutes; formatDuration(5 400 000) is 1h 30m. -/
theorem formatDuration_spec (ms : Nat) :
    formatDuration ms
      = toString (ms / 3600000) ++ "h " ++ toString (ms % 3600000 / 60000) ++ "m" ∧
    ms % 3600000 / 60000 ≤ 59 ∧
    60 * (ms / 3600000) + ms % 3600000 / 60000 = ms / 60000 ∧
    formatDuration 5400000 = "1h 30m" := by
  refine ⟨rfl, by omega, by omega, by decide⟩

end LateClaims

section DrawingClaims
variable {K : Type} [LinearOrderedField K]

/-- C24: the corner list written by the drawing handlers is
[(N,W),(N,E),(S,E),(S,W)], so corners 0 and 2 are diagonally opposite; for
the rectangle stored by overlaycomplete and for every rectangle geofence
edited by handleShapeEdit, isLocationInsideGeofence is true exactly when the
location lies in the bounding box taken over all four corners. -/
theorem drawn_rectangle_is_bounding_box (M : MathOps K) (location northEast southWest : Coord K) :
    (boundsCorners northEast southWest =
        [⟨northEast.lat, southWest.lng⟩, ⟨northEast.lat, northEast.lng⟩,
         ⟨southWest.lat, northEast.lng⟩, ⟨southWest.lat, southWest.lng⟩]) ∧
    (∀ docId name : String,
      (isLocationInsideGeofence M location (overlayRectangle docId name northEast southWest)
          = some true ↔
        inBoundingBox4 ⟨northEast.lat, southWest.lng⟩ ⟨northEast.lat, northEast.lng⟩
          ⟨southWest.lat, northEast.lng⟩ ⟨southWest.lat, southWest.lng⟩ location)) ∧
    (∀ g : Geofence K, g.type = "rectangle" →
      (isLocationInsideGeofence M location (applyUpdate (rectangleEdit northEast southWest) g)
          = some true ↔
        inBoundingBox4 ⟨northEast.lat, southWest.lng⟩ ⟨northEast.lat, northEast.lng⟩
          ⟨southWest.lat, northEast.lng⟩ ⟨southWest.lat, southWest.lng⟩ location)) := by
  have hbox : inBox2 (⟨northEast.lat, southWest.lng⟩ : Coord K) ⟨southWest.lat, northEast.lng⟩
        location ↔
      inBoundingBox4 ⟨northEast.lat, southWest.lng⟩ ⟨northEast.lat, northEast.lng⟩
        ⟨southWest.lat, northEast.lng⟩ ⟨southWest.lat, southWest.lng⟩ location := by
    unfold inBox2 inBoundingBox4
    rw [min4_eq_min2 _ _ _ _ (min_le_left _ _) (min_le_right _ _),
      max4_eq_max2 _ _ _ _ (le_max_left _ _) (le_max_right _ _),
      min4_eq_min2 _ _ _ _ (min_le_right _ _) (min_le_left _ _),
      max4_eq_max2 _ _ _ _ (le_max_right _ _) (le_max_left _ _)]
  refine ⟨rfl, ?_, ?_⟩
  · intro docId name
    rw [← hbox]
    exact rectangle_eval M location _ _ _ _ _ rfl rfl
  · intro g hty
    rw [← hbox]
    exact rectangle_eval M location _ _ _ _ _ hty rfl

/-- Witness for C24: the box geofence redrawn by an edit to latitudes 0..5
and longitudes 0..8 contains (5, 8). -/
theorem drawn_rectangle_is_bounding_box_witness :
    isLocationInsideGeofence realMath ⟨5, 8⟩
        (applyUpdate (rectangleEdit ⟨5, 8⟩ ⟨0, 0⟩) (boxGeofence ℝ)) = some true ↔
      inBoundingBox4 (⟨5, 0⟩ : Coord ℝ) ⟨5, 8⟩ ⟨0, 8⟩ ⟨0, 0⟩ ⟨5, 8⟩ :=
  (drawn_rectangle_is_bounding_box realMath ⟨5, 8⟩ ⟨5, 8⟩ ⟨0, 0⟩).2.2 (boxGeofence ℝ) rfl

end DrawingClaims
section CheckedFacts
variable {K : Type} [LinearOrderedField K]

theorem straddle_lat_ne (point vi vj : Coord K)
    (h : (decide (vi.lat > point.lat) != decide (vj.lat > point.lat)) = true) :
    vi.lat ≠ vj.lat := by
  intro heq
  rw [heq] at h
  simp at h

theorem edgeConditionChecked_eq (point vi vj : Coord K) :
    edgeConditionChecked point vi vj = some (edgeCondition point vi vj) := by
  unfold edgeConditionChecked edgeCondition
  by_cases h : (decide (vi.lat > point.lat) != decide (vj.lat > point.lat)) = true
  · have hne : vj.lat - vi.lat ≠ 0 := sub_ne_zero.mpr (Ne.symm (straddle_lat_ne point vi vj h))
    simp [h, divChecked, hne]
  · have h2 : (decide (vi.lat > point.lat) != decide (vj.lat > point.lat)) = false := by
      simpa using h
    rw [if_neg h, h2, Bool.false_and]

theorem prevIndex_lt (n i : Nat) (hn : 0 < n) (hi : i ≤ n) : prevIndex n i < n := by
  unfold prevIndex
  split <;> omega

theorem foldl_polygonStepChecked (p : Coord K) (v : List (Coord K)) (k : Nat)
    (hk : k ≤ v.length) :
    (List.range k).foldl (polygonStepChecked p v) (some (false, v.length - 1))
      = some ((List.range k).foldl (polygonStep p v) (false, v.length - 1)) := by
  induction k with
  | zero => rfl
  | succ k ih =>
    rw [List.range_succ, List.foldl_append, List.foldl_append, ih (by omega), foldl_polygonStep]
    have hkl : k < v.length := by omega
    have hj : prevIndex v.length k < v.length := prevIndex_lt _ _ (by omega) (by omega)
    simp only [List.foldl_cons, List.foldl_nil, polygonStepChecked, polygonStep,
      List.getElem?_eq_getElem hkl, List.getElem?_eq_getElem hj, edgeConditionChecked_eq,
      Option.map_some', List.getD_eq_getElem _ _ hkl, List.getD_eq_getElem _ _ hj]

end CheckedFacts

section CheckedClaims
variable {K : Type} [LinearOrderedField K]

/-- C27: isPointInPolygon with every index read and every division checked
never fails and returns the value of isPointInPolygon, for every point and
every vertex list; the division is evaluated only when the first conjunct
holds, and the first conjunct implies that the two latitudes differ; the
result for the empty list is false. -/
theorem isPointInPolygon_never_divides_by_zero (point : Coord K) (coordinates : List (Coord K)) :
    isPointInPolygonChecked point coordinates = some (isPointInPolygon point coordinates) ∧
    (∀ vi vj : Coord K,
      (decide (vi.lat > point.lat) != decide (vj.lat > point.lat)) = true →
      vj.lat - vi.lat ≠ 0) ∧
    (∀ vi vj : Coord K,
      (decide (vi.lat > point.lat) != decide (vj.lat > point.lat)) = false →
      edgeConditionChecked point vi vj = some false) ∧
    isPointInPolygon point ([] : List (Coord K)) = false := by
  refine ⟨?_, ?_, ?_, rfl⟩
  · unfold isPointInPolygonChecked isPointInPolygon
    rw [foldl_polygonStepChecked point coordinates _ (le_refl _)]
    rfl
  · intro vi vj h
    exact sub_ne_zero.mpr (Ne.symm (straddle_lat_ne point vi vj h))
  · intro vi vj h
    simp [edgeConditionChecked, h]

/-- Witness for C27: a polygon with a horizontal edge and a repeated vertex is
evaluated without a division by zero. -/
theorem isPointInPolygon_never_divides_by_zero_witness :
    isPointInPolygonChecked (⟨0, 5⟩ : Coord ℚ) [⟨0, 0⟩, ⟨0, 10⟩, ⟨0, 10⟩, ⟨10, 0⟩]
      = some (isPointInPolygon (⟨0, 5⟩ : Coord ℚ) [⟨0, 0⟩, ⟨0, 10⟩, ⟨0, 10⟩, ⟨10, 0⟩]) ∧
    (10 : ℚ) - 0 ≠ 0 :=
  ⟨(isPointInPolygon_never_divides_by_zero (⟨0, 5⟩ : Coord ℚ)
      [⟨0, 0⟩, ⟨0, 10⟩, ⟨0, 10⟩, ⟨10, 0⟩]).1,
   (isPointInPolygon_never_divides_by_zero (⟨0, 5⟩ : Coord ℚ)
      [⟨0, 0⟩, ⟨0, 10⟩, ⟨0, 10⟩, ⟨10, 0⟩]).2.1 ⟨0, 0⟩ ⟨10, 0⟩ (by norm_num)⟩

end CheckedClaims
section BoundFacts

theorem sin_half_diff_sq_add_cos_mul (x y : ℝ) :
    Real.sin ((y - x) / 2) * Real.sin ((y - x) / 2) + Real.cos x * Real.cos y
      = Real.cos ((x + y) / 2) ^ 2 := by
  have h1 : (y - x) / 2 = y / 2 - x / 2 := by ring
  have h2 : (x + y) / 2 = x / 2 + y / 2 := by ring
  have h3 : Real.cos x = Real.cos (x / 2) ^ 2 - Real.sin (x / 2) ^ 2 := by
    rw [← Real.cos_two_mul']
    congr 1
    ring
  have h4 : Real.cos y = Real.cos (y / 2) ^ 2 - Real.sin (y / 2) ^ 2 := by
    rw [← Real.cos_two_mul']
    congr 1
    ring
  rw [h1, h2, Real.sin_sub, Real.cos_add, h3, h4]
  ring

theorem haversineTerm_real_bounds (A B : Coord ℝ) :
    0 ≤ haversineTerm realMath A B ∧ haversineTerm realMath A B ≤ 1 := by
  have hS : (B.lat - A.lat) * Real.pi / 180 / 2
      = (B.lat * Real.pi / 180 - A.lat * Real.pi / 180) / 2 := by ring
  have hid := sin_half_diff_sq_add_cos_mul (A.lat * Real.pi / 180) (B.lat * Real.pi / 180)
  have hs1 : Real.sin ((B.lat * Real.pi / 180 - A.lat * Real.pi / 180) / 2) *
      Real.sin ((B.lat * Real.pi / 180 - A.lat * Real.pi / 180) / 2) ≤ 1 := by
    have := Real.sin_sq_le_one ((B.lat * Real.pi / 180 - A.lat * Real.pi / 180) / 2)
    rwa [pow_two] at this
  have ht1 : Real.sin ((B.lng - A.lng) * Real.pi / 180 / 2) *
      Real.sin ((B.lng - A.lng) * Real.pi / 180 / 2) ≤ 1 := by
    have := Real.sin_sq_le_one ((B.lng - A.lng) * Real.pi / 180 / 2)
    rwa [pow_two] at this
  simp only [haversineTerm, realMath]
  rw [hS]
  generalize Real.sin ((B.lat * Real.pi / 180 - A.lat * Real.pi / 180) / 2) = s at hid hs1 ⊢
  generalize Real.cos (A.lat * Real.pi / 180) * Real.cos (B.lat * Real.pi / 180) = c at hid ⊢
  generalize Real.sin ((B.lng - A.lng) * Real.pi / 180 / 2) = u at ht1 ⊢
  have hq0 : 0 ≤ s * s + c := by
    rw [hid]
    exact sq_nonneg _
  have hq1 : s * s + c ≤ 1 := by
    rw [hid]
    exact Real.cos_sq_le_one _
  have hs0 : 0 ≤ s * s := mul_self_nonneg s
  have ht0 : 0 ≤ u * u := mul_self_nonneg u
  have e1 : s * s + c * u * u = s * s * (1 - u * u) + (s * s + c) * (u * u) := by ring
  have e2 : 1 - (s * s + c * u * u)
      = (1 - s * s) * (1 - u * u) + (1 - (s * s + c)) * (u * u) := by ring
  constructor
  · rw [e1]
    exact add_nonneg (mul_nonneg hs0 (by linarith)) (mul_nonneg hq0 ht0)
  · have : 0 ≤ 1 - (s * s + c * u * u) := by
      rw [e2]
      exact add_nonneg (mul_nonneg (by linarith) (by linarith))
        (mul_nonneg (by linarith) ht0)
    linarith

theorem getDistanceBetweenPoints_eq_term {K : Type} [LinearOrderedField K] (M : MathOps K)
    (A B : Coord K) :
    getDistanceBetweenPoints M A B
      = 6371000 * (2 * M.atan2 (M.sqrt (haversineTerm M A B))
          (M.sqrt (1 - haversineTerm M A B))) := rfl

theorem getDistanceBetweenPoints_real_bounds (A B : Coord ℝ) :
    0 ≤ getDistanceBetweenPoints realMath A B ∧
    getDistanceBetweenPoints realMath A B ≤ Real.pi * 6371000 := by
  rw [getDistanceBetweenPoints_eq_term]
  change 0 ≤ 6371000 * (2 * Complex.arg ⟨Real.sqrt (1 - haversineTerm realMath A B),
      Real.sqrt (haversineTerm realMath A B)⟩) ∧
    6371000 * (2 * Complex.arg ⟨Real.sqrt (1 - haversineTerm realMath A B),
      Real.sqrt (haversineTerm realMath A B)⟩) ≤ Real.pi * 6371000
  have h0 : 0 ≤ Complex.arg ⟨Real.sqrt (1 - haversineTerm realMath A B),
      Real.sqrt (haversineTerm realMath A B)⟩ :=
    Complex.arg_nonneg_iff.mpr (Real.sqrt_nonneg _)
  have h1 : Complex.arg ⟨Real.sqrt (1 - haversineTerm realMath A B),
      Real.sqrt (haversineTerm realMath A B)⟩ ≤ Real.pi / 2 :=
    Complex.arg_le_pi_div_two_iff.mpr (Or.inl (Real.sqrt_nonneg _))
  constructor
  · positivity
  · linarith

end BoundFacts

section BoundClaims

/-- C28, amended to exact arithmetic: over the reals, for all latitudes and
longitudes the haversine term a of getDistanceBetweenPoints lies in [0, 1], so
a and 1 - a, the arguments of the square roots, are not negative; the distance
lies in [0, pi * 6 371 000]; consequently a circle with negative radius
contains no point.  In double arithmetic the bound a ≤ 1 can fail by one unit
in the last place, as the evaluation with roundDouble below shows. -/
theorem haversine_term_and_distance_bounds (A B : Coord ℝ) :
    (0 ≤ haversineTerm realMath A B ∧ haversineTerm realMath A B ≤ 1) ∧
    0 ≤ 1 - haversineTerm realMath A B ∧
    getDistanceBetweenPoints realMath A B
      = 6371000 * (2 * realMath.atan2 (realMath.sqrt (haversineTerm realMath A B))
          (realMath.sqrt (1 - haversineTerm realMath A B))) ∧
    (0 ≤ getDistanceBetweenPoints realMath A B ∧
      getDistanceBetweenPoints realMath A B ≤ Real.pi * 6371000) ∧
    (∀ radius : ℝ, radius < 0 → isPointInCircle realMath A B radius = false) ∧
    (∀ (g : Geofence ℝ) (radius : ℝ), g.type = "circle" → g.center = some B →
      g.radius = some radius → radius < 0 →
      isLocationInsideGeofence realMath A g = some false) := by
  have ha := haversineTerm_real_bounds A B
  have hd := getDistanceBetweenPoints_real_bounds A B
  have hc : ∀ radius : ℝ, radius < 0 → isPointInCircle realMath A B radius = false := by
    intro radius hr
    simp only [isPointInCircle, decide_eq_false_iff_not, not_le]
    linarith [hd.1]
  refine ⟨ha, by linarith [ha.2], rfl, hd, hc, ?_⟩
  intro g radius hty hce hra hr
  simp [isLocationInsideGeofence, hty, hce, hra, hc radius hr]

/-- Witness for C28: the Manila centre is not inside the circle of radius
-50 m around itself. -/
theorem haversine_term_and_distance_bounds_witness :
    isPointInCircle realMath (manilaCentre ℝ) (manilaCentre ℝ) (-50) = false :=
  (haversine_term_and_distance_bounds (manilaCentre ℝ) (manilaCentre ℝ)).2.2.2.2.1 (-50)
    (by norm_num)

end BoundClaims

section RoundingFacts

/-- Without rounding, haversineTermRounded is the exact term haversineTerm. -/
theorem haversineTermRounded_id {K : Type} [LinearOrderedField K] (M : MathOps K)
    (point1 point2 : Coord K) :
    haversineTermRounded id M.PI M.sin M.cos point1 point2 = haversineTerm M point1 point2 :=
  rfl

/-- Known roundings: 0.1 is the double 3602879701896397 / 2^55, doubles are
fixed, and the ties 2^53 + 1 and 2^53 + 3 go to the even mantissa. -/
theorem roundDouble_examples :
    roundDouble (1 / 10) = 3602879701896397 / 2 ^ 55 ∧
    roundDouble (3602879701896397 / 2 ^ 55) = 3602879701896397 / 2 ^ 55 ∧
    roundDouble (-180) = -180 ∧
    roundDouble (2 ^ 53 + 1) = 2 ^ 53 ∧
    roundDouble (2 ^ 53 + 3) = 2 ^ 53 + 4 ∧
    roundDouble piDouble = piDouble := by
  decide!

/-- With enough fuel, halvings is the integer part of the binary logarithm. -/
theorem halvings_spec (fuel : Nat) : ∀ n : Nat, 1 ≤ n → n ≤ fuel →
    2 ^ halvings fuel n ≤ n ∧ n < 2 ^ (halvings fuel n + 1) := by
  induction fuel with
  | zero => intro n h1 hf; omega
  | succ fuel ih =>
    intro n h1 hf
    by_cases h2 : n < 2
    · simp only [halvings, if_pos h2]
      constructor <;> norm_num <;> omega
    · simp only [halvings, if_neg h2]
      have hh := ih (n / 2) (by omega) (by omega)
      obtain ⟨ha, hb⟩ := hh
      constructor
      · rw [pow_succ]; omega
      · rw [pow_succ]; omega

/-- The function roundHalfEven moves a number by at most one half. -/
theorem roundHalfEven_near (q : ℚ) : |(roundHalfEven q : ℚ) - q| ≤ 1 / 2 := by
  have h1 := Int.floor_le q
  have h2 := Int.lt_floor_add_one q
  unfold roundHalfEven
  simp only
  rw [abs_le]
  split_ifs with ha hb hc
  · constructor <;> linarith
  · push_cast; constructor <;> linarith
  · push_cast at *; constructor <;> linarith
  · push_cast at *; constructor <;> linarith

theorem le_roundHalfEven (q : ℚ) (N : Int) (h : (N : ℚ) ≤ q) : N ≤ roundHalfEven q := by
  have hf : N ≤ ⌊q⌋ := Int.le_floor.mpr h
  unfold roundHalfEven
  simp only
  split_ifs <;> omega

theorem roundHalfEven_le (q : ℚ) (N : Int) (h : q ≤ (N : ℚ)) : roundHalfEven q ≤ N := by
  have h1 := Int.floor_le q
  have hf : ⌊q⌋ ≤ N := by exact_mod_cast h1.trans h
  have hlt : (1 : ℚ) / 2 ≤ q - ⌊q⌋ → ⌊q⌋ + 1 ≤ N := by
    intro hh
    have h3 : ((⌊q⌋ : Int) : ℚ) < (N : ℚ) := by linarith
    have h4 : ⌊q⌋ < N := by exact_mod_cast h3
    omega
  unfold roundHalfEven
  simp only
  split_ifs with ha hb hc
  · exact hf
  · exact hlt hb.le
  · exact hf
  · exact hlt (not_lt.mp ha)

theorem binaryExponent_spec (x : ℚ) (hx : x ≠ 0) :
    (2 : ℚ) ^ binaryExponent x ≤ |x| ∧ |x| < (2 : ℚ) ^ (binaryExponent x + 1) := by
  have hn : 1 ≤ x.num.natAbs := by
    have : x.num ≠ 0 := Rat.num_ne_zero.mpr hx
    omega
  have hd : 1 ≤ x.den := x.den_pos
  obtain ⟨na, nb⟩ := halvings_spec x.num.natAbs x.num.natAbs hn le_rfl
  obtain ⟨da, db⟩ := halvings_spec x.den x.den hd le_rfl
  set a := halvings x.num.natAbs x.num.natAbs with ha
  set b := halvings x.den x.den with hb
  have habs : |x| = (x.num.natAbs : ℚ) / (x.den : ℚ) := by
    conv_lhs => rw [← Rat.num_div_den x]
    rw [abs_div, Nat.abs_cast, Nat.cast_natAbs, Int.cast_abs]
  have hdpos : (0 : ℚ) < x.den := by exact_mod_cast x.den_pos
  have na' : (2 : ℚ) ^ a ≤ (x.num.natAbs : ℚ) := by exact_mod_cast na
  have nb' : (x.num.natAbs : ℚ) < (2 : ℚ) ^ (a + 1) := by exact_mod_cast nb
  have da' : (2 : ℚ) ^ b ≤ (x.den : ℚ) := by exact_mod_cast da
  have db' : (x.den : ℚ) < (2 : ℚ) ^ (b + 1) := by exact_mod_cast db
  have h2a : (0 : ℚ) < 2 ^ a := by positivity
  have h2b : (0 : ℚ) < 2 ^ b := by positivity
  have hk : (2 : ℚ) ^ ((a : Int) - (b : Int)) = 2 ^ a / 2 ^ b := by
    rw [zpow_sub₀ (by norm_num : (2 : ℚ) ≠ 0), zpow_natCast, zpow_natCast]
  have hlow : (2 : ℚ) ^ ((a : Int) - (b : Int) - 1) ≤ |x| := by
    rw [zpow_sub₀ (by norm_num : (2 : ℚ) ≠ 0), hk, zpow_one, habs, div_div,
      div_le_div_iff₀ (by positivity) hdpos]
    rw [pow_succ] at db'
    nlinarith
  have hhigh : |x| < (2 : ℚ) ^ ((a : Int) - (b : Int) + 1) := by
    rw [zpow_add₀ (by norm_num : (2 : ℚ) ≠ 0), hk, zpow_one, habs, div_mul_eq_mul_div,
      div_lt_div_iff₀ hdpos (by positivity)]
    rw [pow_succ] at nb'
    nlinarith
  unfold binaryExponent
  simp only
  rw [← ha, ← hb]
  split_ifs with hc
  · refine ⟨hlow, ?_⟩
    rw [sub_add_cancel]
    exact hc
  · exact ⟨not_lt.mp hc, hhigh⟩

/-- For x ≠ 0 with 2^e ≤ |x| < 2^(e+1), roundDouble x is an integer multiple
m * 2^(e-52) with 2^52 ≤ |m| ≤ 2^53 and differs from x by at most half of
2^(e-52). -/
theorem roundDouble_spec (x : ℚ) (hx : x ≠ 0) :
    ((2 : ℚ) ^ binaryExponent x ≤ |x| ∧ |x| < (2 : ℚ) ^ (binaryExponent x + 1)) ∧
    (∃ m : Int, roundDouble x = (m : ℚ) * (2 : ℚ) ^ (binaryExponent x - 52) ∧
      (2 : ℚ) ^ 52 ≤ |(m : ℚ)| ∧ |(m : ℚ)| ≤ (2 : ℚ) ^ 53) ∧
    |roundDouble x - x| ≤ (2 : ℚ) ^ (binaryExponent x - 52) / 2 := by
  obtain ⟨he1, he2⟩ := binaryExponent_spec x hx
  set e := binaryExponent x with hedef
  have hs : (0 : ℚ) < (2 : ℚ) ^ (e - 52) := by positivity
  have hr : roundDouble x = (roundHalfEven (x / (2 : ℚ) ^ (e - 52)) : ℚ) * (2 : ℚ) ^ (e - 52) := by
    unfold roundDouble
    rw [if_neg hx]
  set q := x / (2 : ℚ) ^ (e - 52) with hq
  have hnear := roundHalfEven_near q
  have hxq : x = q * (2 : ℚ) ^ (e - 52) := by
    rw [hq, div_mul_cancel₀ _ hs.ne']
  have hsplit : (2 : ℚ) ^ e = 2 ^ 52 * (2 : ℚ) ^ (e - 52) := by
    rw [zpow_sub₀ (by norm_num : (2 : ℚ) ≠ 0)]
    field_simp
    ring
  have hsplit1 : (2 : ℚ) ^ (e + 1) = 2 ^ 53 * (2 : ℚ) ^ (e - 52) := by
    rw [zpow_add₀ (by norm_num : (2 : ℚ) ≠ 0), hsplit]
    ring
  have habsq : |x| = |q| * (2 : ℚ) ^ (e - 52) := by
    rw [hxq, abs_mul, abs_of_pos hs]
  have hq1 : (2 : ℚ) ^ 52 ≤ |q| := by
    rw [habsq, hsplit] at he1
    exact le_of_mul_le_mul_right he1 hs
  have hq2 : |q| < (2 : ℚ) ^ 53 := by
    rw [habsq, hsplit1] at he2
    exact lt_of_mul_lt_mul_right he2 hs.le
  refine ⟨⟨he1, he2⟩, ⟨roundHalfEven q, hr, ?_, ?_⟩, ?_⟩
  · rcases le_abs'.mp hq1 with hneg | hpos
    · have h := roundHalfEven_le q (-(2 ^ 52)) (by push_cast; linarith)
      have h2 : ((roundHalfEven q : Int) : ℚ) ≤ -(2 ^ 52) := by exact_mod_cast h
      rw [abs_of_nonpos (by linarith)]
      linarith
    · have h := le_roundHalfEven q (2 ^ 52) (by push_cast; linarith)
      have h2 : (2 : ℚ) ^ 52 ≤ ((roundHalfEven q : Int) : ℚ) := by exact_mod_cast h
      exact h2.trans (le_abs_self _)
  · obtain ⟨hlo, hhi⟩ := abs_lt.mp hq2
    have h1 := roundHalfEven_le q (2 ^ 53) (by push_cast; linarith)
    have h2 := le_roundHalfEven q (-(2 ^ 53)) (by push_cast; linarith)
    have h3 : ((roundHalfEven q : Int) : ℚ) ≤ 2 ^ 53 := by exact_mod_cast h1
    have h4 : -(2 : ℚ) ^ 53 ≤ ((roundHalfEven q : Int) : ℚ) := by exact_mod_cast h2
    exact abs_le.mpr ⟨h4, h3⟩
  · rw [hr]
    have : (roundHalfEven q : ℚ) * (2 : ℚ) ^ (e - 52) - x
        = ((roundHalfEven q : ℚ) - q) * (2 : ℚ) ^ (e - 52) := by
      rw [sub_mul, ← hxq]
    rw [this, abs_mul, abs_of_pos hs]
    calc |(roundHalfEven q : ℚ) - q| * (2 : ℚ) ^ (e - 52)
        ≤ 1 / 2 * (2 : ℚ) ^ (e - 52) := mul_le_mul_of_nonneg_right hnear hs.le
      _ = (2 : ℚ) ^ (e - 52) / 2 := by ring

theorem sinSeries_cast (x : ℚ) (n : Nat) :
    ((sinSeries x n : ℚ) : ℝ) = sinSeries (x : ℝ) n := by
  induction n with
  | zero => simp [sinSeries]
  | succ n ih => simp only [sinSeries]; push_cast; rw [ih]

theorem cosSeries_cast (x : ℚ) (n : Nat) :
    ((cosSeries x n : ℚ) : ℝ) = cosSeries (x : ℝ) n := by
  induction n with
  | zero => simp [cosSeries]
  | succ n ih => simp only [cosSeries]; push_cast; rw [ih]

theorem expSum_split (x : ℝ) (n : Nat) :
    ∑ m in Finset.range (2 * n), ((x : ℂ) * Complex.I) ^ m / (m.factorial : ℂ)
      = ((cosSeries x n : ℝ) : ℂ) + ((sinSeries x n : ℝ) : ℂ) * Complex.I := by
  induction n with
  | zero => simp [cosSeries, sinSeries]
  | succ n ih =>
    have h2 : 2 * (n + 1) = 2 * n + 1 + 1 := by ring
    rw [h2, Finset.sum_range_succ, Finset.sum_range_succ, ih]
    simp only [cosSeries, sinSeries]
    have hI : Complex.I ^ (2 * n) = (-1) ^ n := by rw [pow_mul, Complex.I_sq]
    have hI1 : Complex.I ^ (2 * n + 1) = (-1) ^ n * Complex.I := by rw [pow_succ, hI]
    rw [mul_pow, mul_pow, hI, hI1]
    push_cast
    ring

/-- For |x| ≤ 2 the 20-term series are within 1e-35 of the cosine and the
sine. -/
theorem series_approx (x : ℝ) (hx : |x| ≤ 2) :
    |Real.cos x - cosSeries x 20| ≤ 1 / 10 ^ 35 ∧
    |Real.sin x - sinSeries x 20| ≤ 1 / 10 ^ 35 := by
  have hb := Complex.exp_bound' (x := (x : ℂ) * Complex.I) (n := 40) (by
    rw [map_mul, Complex.abs_I, mul_one, Complex.abs_ofReal]
    have : |x| / ((Nat.succ 40 : ℕ) : ℝ) ≤ 2 / 41 := by
      push_cast
      exact div_le_div_of_nonneg_right hx (by norm_num)
    linarith [show (2 : ℝ) / 41 ≤ 1 / 2 by norm_num])
  have hs := expSum_split x 20
  norm_num at hs
  rw [hs, Complex.exp_mul_I, ← Complex.ofReal_cos, ← Complex.ofReal_sin,
    map_mul, Complex.abs_I, mul_one, Complex.abs_ofReal] at hb
  have hd : ((Real.cos x : ℝ) : ℂ) + ((Real.sin x : ℝ) : ℂ) * Complex.I -
      (((cosSeries x 20 : ℝ) : ℂ) + ((sinSeries x 20 : ℝ) : ℂ) * Complex.I)
      = ((Real.cos x - cosSeries x 20 : ℝ) : ℂ)
        + ((Real.sin x - sinSeries x 20 : ℝ) : ℂ) * Complex.I := by
    push_cast; ring
  rw [hd] at hb
  have hbound : |x| ^ 40 / ((Nat.factorial 40 : ℕ) : ℝ) * 2 ≤ 1 / 10 ^ 35 := by
    have hp : |x| ^ 40 ≤ 2 ^ 40 := pow_le_pow_left₀ (abs_nonneg x) hx 40
    have hf : (0 : ℝ) < ((Nat.factorial 40 : ℕ) : ℝ) := by positivity
    calc |x| ^ 40 / ((Nat.factorial 40 : ℕ) : ℝ) * 2
        ≤ 2 ^ 40 / ((Nat.factorial 40 : ℕ) : ℝ) * 2 := by
          apply mul_le_mul_of_nonneg_right _ (by norm_num)
          exact div_le_div_of_nonneg_right hp hf.le
      _ ≤ 1 / 10 ^ 35 := by
          rw [show Nat.factorial 40 = 815915283247897734345611269596115894272000000000
            by decide!]
          norm_num
  have key : ∀ a b : ℝ, |a| ≤ Complex.abs ((a : ℂ) + (b : ℂ) * Complex.I) ∧
      |b| ≤ Complex.abs ((a : ℂ) + (b : ℂ) * Complex.I) := by
    intro a b
    have h1 := Complex.abs_re_le_abs ((a : ℂ) + (b : ℂ) * Complex.I)
    have h2 := Complex.abs_im_le_abs ((a : ℂ) + (b : ℂ) * Complex.I)
    simp only [Complex.add_re, Complex.ofReal_re, Complex.mul_re, Complex.I_re, mul_zero,
      Complex.ofReal_im, Complex.I_im, mul_one, sub_self, add_zero, Complex.add_im,
      Complex.mul_im, zero_add] at h1 h2
    exact ⟨h1, h2⟩
  obtain ⟨hre, him⟩ := key (Real.cos x - cosSeries x 20) (Real.sin x - sinSeries x 20)
  exact ⟨by linarith, by linarith⟩

/-- If the rounded series value is closer than ε - 1e-35 to the series, then
sinDouble x is closer than ε to the sine of x. -/
theorem sinDouble_near (x ε : ℚ) (hx : |x| ≤ 2)
    (h : |sinSeries x 20 - sinDouble x| < ε - 1 / 10 ^ 35) :
    |Real.sin (x : ℝ) - ((sinDouble x : ℚ) : ℝ)| < (ε : ℝ) := by
  have hx2 : |(x : ℝ)| ≤ 2 := by exact_mod_cast hx
  have h1 := (series_approx (x : ℝ) hx2).2
  rw [← sinSeries_cast] at h1
  have h2 : |((sinSeries x 20 : ℚ) : ℝ) - ((sinDouble x : ℚ) : ℝ)| < (ε : ℝ) - 1 / 10 ^ 35 := by
    have h4 := (Rat.cast_lt (K := ℝ)).mpr h
    rw [Rat.cast_abs] at h4
    push_cast at h4
    exact h4
  have h3 := abs_sub_le (Real.sin (x : ℝ)) ((sinSeries x 20 : ℚ) : ℝ) ((sinDouble x : ℚ) : ℝ)
  linarith

/-- If the rounded series value is closer than ε - 1e-35 to the series, then
cosDouble x is closer than ε to the cosine of x. -/
theorem cosDouble_near (x ε : ℚ) (hx : |x| ≤ 2)
    (h : |cosSeries x 20 - cosDouble x| < ε - 1 / 10 ^ 35) :
    |Real.cos (x : ℝ) - ((cosDouble x : ℚ) : ℝ)| < (ε : ℝ) := by
  have hx2 : |(x : ℝ)| ≤ 2 := by exact_mod_cast hx
  have h1 := (series_approx (x : ℝ) hx2).1
  rw [← cosSeries_cast] at h1
  have h2 : |((cosSeries x 20 : ℚ) : ℝ) - ((cosDouble x : ℚ) : ℝ)| < (ε : ℝ) - 1 / 10 ^ 35 := by
    have h4 := (Rat.cast_lt (K := ℝ)).mpr h
    rw [Rat.cast_abs] at h4
    push_cast at h4
    exact h4
  have h3 := abs_sub_le (Real.cos (x : ℝ)) ((cosSeries x 20 : ℚ) : ℝ) ((cosDouble x : ℚ) : ℝ)
  linarith

end RoundingFacts

section RoundingClaims

/-- C28, counterexample: in IEEE-754 double arithmetic the haversine term a of
getDistanceBetweenPoints exceeds 1 between (-8, 0) and (8, 180).  The angle
8 * Math.PI / 180 is the double 5030569068109113 / 2^55; the values of
Math.sin and Math.cos used are the doubles nearest to the real sine and
cosine (closer than half a unit in the last place); a evaluates to
1 + 2^-52, so a ≤ 1 fails and the argument 1 - a of the second Math.sqrt is
-2^-52, a negative number.  The same value 1 + 2^-52 results between
(-88.2, 0) and (88.2, 180). -/
theorem haversine_term_exceeds_one_in_doubles :
    eightDegrees = 5030569068109113 / 2 ^ 55 ∧
    (|Real.sin (eightDegrees : ℝ) - ((sinDouble eightDegrees : ℚ) : ℝ)|
        < ((1 / 2 ^ 56 : ℚ) : ℝ) ∧
      |Real.cos (eightDegrees : ℝ) - ((cosDouble eightDegrees : ℚ) : ℝ)|
        < ((1 / 2 ^ 54 : ℚ) : ℝ) ∧
      |Real.cos ((-eightDegrees : ℚ) : ℝ) - ((cosDouble (-eightDegrees) : ℚ) : ℝ)|
        < ((1 / 2 ^ 54 : ℚ) : ℝ) ∧
      |Real.sin ((piDouble / 2 : ℚ) : ℝ) - ((sinDouble (piDouble / 2) : ℚ) : ℝ)|
        < ((1 / 2 ^ 54 : ℚ) : ℝ)) ∧
    (sinDouble eightDegrees = 5014239404989977 / 2 ^ 55 ∧
      cosDouble eightDegrees = 4459770905381437 / 2 ^ 52 ∧
      cosDouble (-eightDegrees) = 4459770905381437 / 2 ^ 52 ∧
      sinDouble (piDouble / 2) = 1) ∧
    haversineTermRounded roundDouble piDouble sinDouble cosDouble ⟨-8, 0⟩ ⟨8, 180⟩
      = 1 + 1 / 2 ^ 52 ∧
    ¬ (haversineTermRounded roundDouble piDouble sinDouble cosDouble ⟨-8, 0⟩ ⟨8, 180⟩ ≤ 1) ∧
    roundDouble
        (1 - haversineTermRounded roundDouble piDouble sinDouble cosDouble ⟨-8, 0⟩ ⟨8, 180⟩)
      = -(1 / 2 ^ 52) ∧
    roundDouble
        (1 - haversineTermRounded roundDouble piDouble sinDouble cosDouble ⟨-8, 0⟩ ⟨8, 180⟩)
      < 0 ∧
    haversineTermRounded roundDouble piDouble sinDouble cosDouble
        ⟨roundDouble (-882 / 10), 0⟩ ⟨roundDouble (882 / 10), 180⟩
      = 1 + 1 / 2 ^ 52 := by
  refine ⟨by decide!, ⟨?_, ?_, ?_, ?_⟩, by decide!, by decide!, by decide!, by decide!,
    by decide!, by decide!⟩
  · exact sinDouble_near eightDegrees (1 / 2 ^ 56) (by decide!) (by decide!)
  · exact cosDouble_near eightDegrees (1 / 2 ^ 54) (by decide!) (by decide!)
  · exact cosDouble_near (-eightDegrees) (1 / 2 ^ 54) (by decide!) (by decide!)
  · exact sinDouble_near (piDouble / 2) (1 / 2 ^ 54) (by decide!) (by decide!)

end RoundingClaims

section RingFacts
variable {K : Type} [LinearOrderedField K]

theorem edgeLngAt_symm (vi vj : Coord K) (lat : K) (h : vi.lat ≠ vj.lat) :
    edgeLngAt vi vj lat = edgeLngAt vj vi lat := by
  unfold edgeLngAt
  have h1 : vj.lat - vi.lat ≠ 0 := sub_ne_zero.mpr (Ne.symm h)
  have h2 : vi.lat - vj.lat ≠ 0 := sub_ne_zero.mpr h
  field_simp
  ring

theorem edgeCondition_symm (p vi vj : Coord K) :
    edgeCondition p vi vj = edgeCondition p vj vi := by
  rw [edgeCondition_eq_crossesHalfOpen, edgeCondition_eq_crossesHalfOpen]
  unfold crossesHalfOpen
  rw [decide_eq_decide]
  constructor
  · rintro ⟨h1, h2⟩
    have hne : vi.lat ≠ vj.lat := by
      rcases h1 with h | h
      · exact ne_of_lt (lt_of_le_of_lt h.1 h.2)
      · exact (ne_of_lt (lt_of_le_of_lt h.1 h.2)).symm
    exact ⟨h1.symm, by rw [← edgeLngAt_symm vi vj _ hne]; exact h2⟩
  · rintro ⟨h1, h2⟩
    have hne : vi.lat ≠ vj.lat := by
      rcases h1 with h | h
      · exact (ne_of_lt (lt_of_le_of_lt h.1 h.2)).symm
      · exact ne_of_lt (lt_of_le_of_lt h.1 h.2)
    exact ⟨h1.symm, by rw [edgeLngAt_symm vi vj _ hne]; exact h2⟩

theorem length_filter_range_eq_card (f : Nat → Bool) (n : Nat) :
    ((List.range n).filter f).length
      = ((Finset.range n).filter (fun i => f i = true)).card := by
  simp only [Finset.card, Finset.filter, Finset.range, Multiset.range, Multiset.filter_coe,
    Multiset.coe_card]
  congr 1
  apply List.filter_congr
  intro i _
  simp

theorem isPointInPolygon_eq_card (p : Coord K) (v : List (Coord K)) :
    isPointInPolygon p v
      = decide (((Finset.range v.length).filter
          (fun i => edgeCondition p (v.getD i ⟨0, 0⟩)
            (v.getD (prevIndex v.length i) ⟨0, 0⟩) = true)).card % 2 = 1) := by
  unfold isPointInPolygon
  rw [foldl_polygonStep, length_filter_range_eq_card]

end RingFacts

section IndexFacts

theorem succ_prevIndex (n j : Nat) (hj : j < n) :
    (if prevIndex n j + 1 = n then 0 else prevIndex n j + 1) = j := by
  unfold prevIndex
  by_cases h0 : j = 0
  · subst h0
    have : n - 1 + 1 = n := by omega
    simp [this]
  · have h1 : j - 1 + 1 ≠ n := by omega
    simp only [h0, if_false, h1]
    omega

theorem prevIndex_succ (n i : Nat) (_hi : i < n) :
    prevIndex n (if i + 1 = n then 0 else i + 1) = i := by
  unfold prevIndex
  by_cases h0 : i + 1 = n
  · simp only [h0, if_true]
    omega
  · simp only [h0, if_false]
    have : i + 1 ≠ 0 := by omega
    simp

theorem mirror_prevIndex (n i : Nat) (hi : i < n) :
    n - 1 - i = prevIndex n (if i = 0 then 0 else n - i) := by
  unfold prevIndex
  by_cases h0 : i = 0
  · simp [h0]
  · have h1 : n - i ≠ 0 := by omega
    simp only [h0, if_false, h1]
    omega

theorem prevIndex_mirror (n i : Nat) (hi : i < n) :
    n - 1 - prevIndex n i = (if i = 0 then 0 else n - i) := by
  unfold prevIndex
  by_cases h0 : i = 0
  · simp only [h0, if_true]
    omega
  · simp only [h0, if_false]
    omega

theorem mirrorIndex_lt (n i : Nat) (hi : i < n) : (if i = 0 then 0 else n - i) < n := by
  split <;> omega

theorem mirrorIndex_mirrorIndex (n i : Nat) (hi : i < n) :
    (if (if i = 0 then 0 else n - i) = 0 then 0 else n - (if i = 0 then 0 else n - i)) = i := by
  by_cases h0 : i = 0
  · simp [h0]
  · have h1 : n - i ≠ 0 := by omega
    simp only [h0, if_false, h1]
    omega

theorem succIndex_lt (n i : Nat) (hi : i < n) : (if i + 1 = n then 0 else i + 1) < n := by
  split <;> omega

theorem getD_rotate_one {α : Type} (v : List α) (d : α) (i : Nat) (hi : i < v.length) :
    (v.rotate 1).getD i d = v.getD (if i + 1 = v.length then 0 else i + 1) d := by
  have hi2 : i < (v.rotate 1).length := by rw [List.length_rotate]; exact hi
  rw [List.getD_eq_getElem _ _ hi2, List.getElem_rotate]
  have hidx : (i + 1) % v.length = if i + 1 = v.length then 0 else i + 1 := by
    split
    · next h => rw [h, Nat.mod_self]
    · next h => exact Nat.mod_eq_of_lt (by omega)
  rw [List.getD_eq_getElem _ _ (succIndex_lt _ _ hi)]
  simp only [hidx]

theorem getD_reverse {α : Type} (v : List α) (d : α) (i : Nat) (hi : i < v.length) :
    v.reverse.getD i d = v.getD (v.length - 1 - i) d := by
  have hi2 : i < v.reverse.length := by rw [List.length_reverse]; exact hi
  rw [List.getD_eq_getElem _ _ hi2, List.getElem_reverse,
    List.getD_eq_getElem _ _ (by omega : v.length - 1 - i < v.length)]

end IndexFacts

section RingRotation
variable {K : Type} [LinearOrderedField K]

theorem isPointInPolygon_rotate_one (p : Coord K) (v : List (Coord K)) :
    isPointInPolygon p (v.rotate 1) = isPointInPolygon p v := by
  rw [isPointInPolygon_eq_card, isPointInPolygon_eq_card, List.length_rotate]
  have key : ∀ i, i < v.length →
      edgeCondition p ((v.rotate 1).getD i ⟨0, 0⟩)
          ((v.rotate 1).getD (prevIndex v.length i) ⟨0, 0⟩)
        = edgeCondition p (v.getD (if i + 1 = v.length then 0 else i + 1) ⟨0, 0⟩)
          (v.getD (prevIndex v.length (if i + 1 = v.length then 0 else i + 1)) ⟨0, 0⟩) := by
    intro i hi
    have hp : prevIndex v.length i < v.length := prevIndex_lt _ _ (by omega) (by omega)
    rw [getD_rotate_one v _ i hi, getD_rotate_one v _ _ hp, succ_prevIndex _ _ hi,
      prevIndex_succ _ _ hi]
  have hcard :
      ((Finset.range v.length).filter (fun i =>
          edgeCondition p ((v.rotate 1).getD i ⟨0, 0⟩)
            ((v.rotate 1).getD (prevIndex v.length i) ⟨0, 0⟩) = true)).card
      = ((Finset.range v.length).filter (fun i =>
          edgeCondition p (v.getD i ⟨0, 0⟩)
            (v.getD (prevIndex v.length i) ⟨0, 0⟩) = true)).card := by
    apply Finset.card_nbij' (fun i => if i + 1 = v.length then 0 else i + 1)
      (prevIndex v.length)
    · intro i hi
      simp only [Finset.mem_filter, Finset.mem_range, Finset.coe_filter,
        Set.mem_setOf_eq] at hi ⊢
      refine ⟨succIndex_lt _ _ hi.1, ?_⟩
      rw [← key i hi.1]
      exact hi.2
    · intro j hj
      simp only [Finset.mem_filter, Finset.mem_range, Finset.coe_filter,
        Set.mem_setOf_eq] at hj ⊢
      have hp : prevIndex v.length j < v.length := prevIndex_lt _ _ (by omega) (by omega)
      refine ⟨hp, ?_⟩
      rw [key _ hp, succ_prevIndex _ _ hj.1]
      exact hj.2
    · intro i hi
      simp only [Finset.mem_filter, Finset.mem_range, Finset.coe_filter,
        Set.mem_setOf_eq] at hi
      exact prevIndex_succ _ _ hi.1
    · intro j hj
      simp only [Finset.mem_filter, Finset.mem_range, Finset.coe_filter,
        Set.mem_setOf_eq] at hj
      exact succ_prevIndex _ _ hj.1
  rw [hcard]

theorem isPointInPolygon_rotate (p : Coord K) (v : List (Coord K)) (k : Nat) :
    isPointInPolygon p (v.rotate k) = isPointInPolygon p v := by
  induction k with
  | zero => simp
  | succ k ih => rw [← List.rotate_rotate, isPointInPolygon_rotate_one, ih]

end RingRotation

section RingReversal
variable {K : Type} [LinearOrderedField K]

theorem isPointInPolygon_reverse (p : Coord K) (v : List (Coord K)) :
    isPointInPolygon p v.reverse = isPointInPolygon p v := by
  rw [isPointInPolygon_eq_card, isPointInPolygon_eq_card, List.length_reverse]
  have key : ∀ i, i < v.length →
      edgeCondition p (v.reverse.getD i ⟨0, 0⟩)
          (v.reverse.getD (prevIndex v.length i) ⟨0, 0⟩)
        = edgeCondition p (v.getD (if i = 0 then 0 else v.length - i) ⟨0, 0⟩)
          (v.getD (prevIndex v.length (if i = 0 then 0 else v.length - i)) ⟨0, 0⟩) := by
    intro i hi
    have hp : prevIndex v.length i < v.length := prevIndex_lt _ _ (by omega) (by omega)
    rw [getD_reverse v _ i hi, getD_reverse v _ _ hp, prevIndex_mirror _ _ hi,
      mirror_prevIndex _ _ hi, edgeCondition_symm]
  have hcard :
      ((Finset.range v.length).filter (fun i =>
          edgeCondition p (v.reverse.getD i ⟨0, 0⟩)
            (v.reverse.getD (prevIndex v.length i) ⟨0, 0⟩) = true)).card
      = ((Finset.range v.length).filter (fun i =>
          edgeCondition p (v.getD i ⟨0, 0⟩)
            (v.getD (prevIndex v.length i) ⟨0, 0⟩) = true)).card := by
    apply Finset.card_nbij' (fun i => if i = 0 then 0 else v.length - i)
      (fun i => if i = 0 then 0 else v.length - i)
    · intro i hi
      simp only [Finset.mem_filter, Finset.mem_range, Finset.coe_filter,
        Set.mem_setOf_eq] at hi ⊢
      refine ⟨mirrorIndex_lt _ _ hi.1, ?_⟩
      rw [← key i hi.1]
      exact hi.2
    · intro j hj
      simp only [Finset.mem_filter, Finset.mem_range, Finset.coe_filter,
        Set.mem_setOf_eq] at hj ⊢
      have hm := mirrorIndex_lt _ _ hj.1
      refine ⟨hm, ?_⟩
      rw [key _ hm, mirrorIndex_mirrorIndex _ _ hj.1]
      exact hj.2
    · intro i hi
      simp only [Finset.mem_filter, Finset.mem_range, Finset.coe_filter,
        Set.mem_setOf_eq] at hi
      exact mirrorIndex_mirrorIndex _ _ hi.1
    · intro j hj
      simp only [Finset.mem_filter, Finset.mem_range, Finset.coe_filter,
        Set.mem_setOf_eq] at hj
      exact mirrorIndex_mirrorIndex _ _ hj.1
  rw [hcard]

/-- C26: over exact arithmetic isPointInPolygon gives the same result for a
vertex list, for every cyclic rotation of it and for the reversed list. -/
theorem isPointInPolygon_ring_invariant (p : Coord K) (v : List (Coord K)) :
    (∀ k : Nat, isPointInPolygon p (v.rotate k) = isPointInPolygon p v) ∧
    isPointInPolygon p v.reverse = isPointInPolygon p v :=
  ⟨isPointInPolygon_rotate p v, isPointInPolygon_reverse p v⟩

end RingReversal

section DisplayNameClaims

/-- C23 (code evaluated at the failing input): for the geofence names A, A
and A (2) a fresh getDisplayName shows A, A (2) and A (2): the second and the
third display name are equal. -/
theorem displayNames_collide :
    displayNames asciiStringOps ["A", "A", "A (2)"] = ["A", "A (2)", "A (2)"] ∧
    ¬ (displayNames asciiStringOps ["A", "A", "A (2)"]).Nodup := by
  constructor
  · decide
  · decide

end DisplayNameClaims

section TrackingClaims

/-- C22 (as stated, refuted): after the calls start, start, stop, with the
sensor returning the handles 1 and 2, the watch with handle 1 is still active
although the stored handle is null and isTracking is false. -/
theorem double_start_leaves_watch :
    trackRun true TrackState.initial [TrackCall.start 1, TrackCall.start 2, TrackCall.stop]
      = { watchIdRef := none, isTracking := false, activeWatches := [1] } := by
  decide

theorem toggled_invariant (supported : Bool) (calls : List TrackCall) (s : TrackState)
    (hs : (s.isTracking = false → s.activeWatches = [] ∧ s.watchIdRef = none) ∧
      (s.isTracking = true → ∃ h, h ≠ 0 ∧ s.watchIdRef = some h ∧ s.activeWatches = [h]))
    (ht : toggled supported s calls = true) :
    ((trackRun supported s calls).isTracking = false →
        (trackRun supported s calls).activeWatches = [] ∧
        (trackRun supported s calls).watchIdRef = none) ∧
    ((trackRun supported s calls).isTracking = true →
        ∃ h, h ≠ 0 ∧ (trackRun supported s calls).watchIdRef = some h ∧
          (trackRun supported s calls).activeWatches = [h]) := by
  induction calls generalizing s with
  | nil => exact hs
  | cons c calls ih =>
    cases c with
    | start handle =>
      simp only [toggled, Bool.and_eq_true, Bool.not_eq_true', decide_eq_true_eq] at ht
      obtain ⟨⟨hoff, hne⟩, hrest⟩ := ht
      simp only [trackRun, List.foldl_cons]
      apply ih _ _ hrest
      obtain ⟨hw, hr⟩ := hs.1 hoff
      cases supported
      · simp only [trackStep, startLocationTracking, Bool.not_false, if_true]
        exact hs
      · simp only [trackStep, startLocationTracking, Bool.not_true, Bool.false_eq_true, if_false]
        constructor
        · intro h
          exact absurd h (by simp)
        · intro _
          exact ⟨handle, hne, rfl, by simp [hw]⟩
    | stop =>
      simp only [toggled] at ht
      simp only [trackRun, List.foldl_cons]
      apply ih _ _ ht
      cases htr : s.isTracking with
      | false =>
        obtain ⟨hw, hr⟩ := hs.1 htr
        simp [trackStep, stopLocationTracking, hr, hw, htr]
      | true =>
        obtain ⟨h, hne, hr, hw⟩ := hs.2 htr
        simp [trackStep, stopLocationTracking, hr, hw, hne]

/-- C22 (amended): for every sequence of calls in which startLocationTracking
is invoked only while isTracking is false (as the tracking button does) and
the sensor returns non-zero handles, after a stopLocationTracking no watch is
active, the stored handle is null and isTracking is false; a further
stopLocationTracking changes nothing. -/
theorem stop_after_toggled_calls (supported : Bool) (calls : List TrackCall)
    (ht : toggled supported TrackState.initial calls = true) :
    stopLocationTracking (trackRun supported TrackState.initial calls)
      = { watchIdRef := none, isTracking := false, activeWatches := [] } ∧
    stopLocationTracking (stopLocationTracking (trackRun supported TrackState.initial calls))
      = stopLocationTracking (trackRun supported TrackState.initial calls) := by
  have hinv := toggled_invariant supported calls TrackState.initial
    ⟨fun _ => ⟨rfl, rfl⟩, fun h => absurd h (by simp [TrackState.initial])⟩ ht
  generalize trackRun supported TrackState.initial calls = s at hinv
  have h1 : stopLocationTracking s
      = { watchIdRef := none, isTracking := false, activeWatches := [] } := by
    cases htr : s.isTracking with
    | false =>
      obtain ⟨hw, hr⟩ := hinv.1 htr
      cases s
      simp_all [stopLocationTracking]
    | true =>
      obtain ⟨h, hne, hr, hw⟩ := hinv.2 htr
      simp [stopLocationTracking, hr, hw, hne]
  refine ⟨h1, ?_⟩
  rw [h1]
  rfl

/-- Witness for C22 (amended): start, stop, start, stop with the handles 1
and 2. -/
theorem stop_after_toggled_calls_witness :
    stopLocationTracking (trackRun true TrackState.initial
        [TrackCall.start 1, TrackCall.stop, TrackCall.start 2])
      = { watchIdRef := none, isTracking := false, activeWatches := [] } :=
  (stop_after_toggled_calls true [TrackCall.start 1, TrackCall.stop, TrackCall.start 2]
    (by decide)).1

end TrackingClaims
section OverlapClaims
variable {K : Type}

/-- C21 (as stated, refuted): from the ready state (CLOCKED_OUT) a first
Time In evaluates its guards and awaits addDoc; the Time In button is still
enabled, a second Time In evaluates its guards on the same state and passes;
both appends resolve.  Two time-in records are appended to the remote
collection. -/
theorem overlapping_timeIn_appends_twice :
    ∃ p1 p2 : PendingAppend ℚ,
      timeInBegin sampleUser (clockAt sampleT0 "Fri Nov 06 2026") (readyState ℚ) = Sum.inr p1 ∧
      timeInButtonDisabled (readyState ℚ) = false ∧
      timeInBegin sampleUser (clockAt (sampleT0 + 200) "Fri Nov 06 2026") (readyState ℚ)
        = Sum.inr p2 ∧
      p1.record.type = "time-in" ∧ p2.record.type = "time-in" ∧ p1.record ≠ p2.record ∧
      (timeInResume p2 true (timeInResume p1 true (readyState ℚ)).2).2.remoteAttendance
        = [p1.record, p2.record] := by
  refine ⟨_, _, rfl, rfl, rfl, rfl, rfl, ?_, rfl⟩
  intro h
  have h2 := congrArg AttendanceRecord.id h
  simp [clockAt, sampleT0] at h2

/-- C21 (amended): the handlers are the composition of a guard phase and a
mutation phase and nothing serializes them.  When the mutation phase runs on
the state the guards were read from (no other transition in between), the
result is that of handleTimeIn and handleTimeOut.  When two Time In clicks
from CLOCKED_OUT overlap and both appends resolve, both records are appended
to the remote collection, and the local history, the active shift and the
shift marker are those written by the invocation that resolved last. -/
theorem handlers_are_two_phases (user : User) (clock1 clock2 : ClockReads) (s : DashState K) :
    (∀ ok : Bool, handleTimeIn user clock1 ok s =
      match timeInBegin user clock1 s with
      | Sum.inl o => (o, s)
      | Sum.inr p => timeInResume p ok s) ∧
    (∀ ok : Bool, handleTimeOut user clock1 ok s =
      match timeOutBegin user clock1 s with
      | Sum.inl o => (o, s)
      | Sum.inr p => timeOutResume p ok s) ∧
    (s.currentLocation ≠ none → (s.isInsideGeofence = true ∨ s.geofences = []) →
      s.currentShift = none →
      ∃ p1 p2 : PendingAppend K,
        timeInBegin user clock1 s = Sum.inr p1 ∧ timeInBegin user clock2 s = Sum.inr p2 ∧
        timeInButtonDisabled s = false ∧
        (timeInResume p2 true (timeInResume p1 true s).2).2.remoteAttendance
          = s.remoteAttendance ++ [p1.record, p2.record] ∧
        (timeInResume p2 true (timeInResume p1 true s).2).2.attendanceRecords
          = s.attendanceRecords ++ [p2.record] ∧
        (timeInResume p2 true (timeInResume p1 true s).2).2.currentShift = some p2.record ∧
        (timeInResume p2 true (timeInResume p1 true s).2).2.storedShift = some p2.record) := by
  refine ⟨?_, ?_, ?_⟩
  · intro ok
    unfold handleTimeIn timeInBegin
    cases hl : s.currentLocation with
    | none => rfl
    | some loc =>
      by_cases hg : ((!s.isInsideGeofence) && decide (s.geofences.length > 0)) = true
      · simp [hg]
      · by_cases hsh : s.currentShift.isSome = true
        · simp [hg, hsh]
        · cases ok <;>
          simp [hg, hsh, hl, timeInResume, saveShiftToStorage, saveAttendanceRecord]
  · intro ok
    unfold handleTimeOut timeOutBegin
    cases hl : s.currentLocation with
    | none => rfl
    | some loc =>
      by_cases hg : ((!s.isInsideGeofence) && decide (s.geofences.length > 0)) = true
      · simp [hg]
      · cases hsh : s.currentShift with
        | none => simp [hg]
        | some shift =>
          cases ok <;> simp [hg, hl, timeOutResume, saveAttendanceRecord]
  · intro hloc hguard hshift
    have hg := (guard_passes_iff s).mpr hguard
    obtain ⟨loc, hl⟩ := Option.ne_none_iff_exists'.mp hloc
    refine ⟨_, _, by simp only [timeInBegin, hl, hg, hshift]; rfl,
      by simp only [timeInBegin, hl, hg, hshift]; rfl, ?_, ?_, ?_, ?_, ?_⟩
    · simp [timeInButtonDisabled, hl, hshift]
    · simp [timeInResume]
    · simp [timeInResume]
    · simp [timeInResume]
    · simp [timeInResume]

/-- Witness for C21 (amended): two overlapping Time In clicks from the ready
state leave two records in the remote collection and one in the local
history. -/
theorem handlers_are_two_phases_witness :
    ∃ p1 p2 : PendingAppend ℚ,
      timeInBegin sampleUser (clockAt sampleT0 "Fri Nov 06 2026") (readyState ℚ) = Sum.inr p1 ∧
      timeInBegin sampleUser (clockAt (sampleT0 + 200) "Fri Nov 06 2026") (readyState ℚ)
        = Sum.inr p2 ∧
      ((timeInResume p2 true (timeInResume p1 true (readyState ℚ)).2).2.remoteAttendance).length
        = 2 ∧
      ((timeInResume p2 true (timeInResume p1 true (readyState ℚ)).2).2.attendanceRecords).length
        = 1 := by
  obtain ⟨p1, p2, h1, h2, _, h4, h5, _, _⟩ :=
    (handlers_are_two_phases sampleUser (clockAt sampleT0 "Fri Nov 06 2026")
      (clockAt (sampleT0 + 200) "Fri Nov 06 2026") (readyState ℚ)).2.2
      (by simp [readyState]) (Or.inr rfl) rfl
  refine ⟨p1, p2, h1, h2, ?_, ?_⟩
  · rw [h4]
    rfl
  · rw [h5]
    rfl

end OverlapClaims

end OJT
